import Mathlib

/-!
Shallow embedding of the LaudoFy backend's report (laudo) lifecycle,
digital-certificate service and signing pipeline, translated from the
JavaScript sources (`laudoController` and `certificadoDigitalService`),
together with theorems settling the specification claims about them.

Dates are modelled as year/month/day triples mirroring JavaScript's
`Date` accessors (`getFullYear`, `getMonth` with months 0–11, `getDate`
with days 1–31).  Database collections are modelled as lists of records,
external effects (PKCS#12 parsing, PDF signing, S3/UploadCare uploads,
file deletion) as boolean-valued oracles passed explicitly.
-/

namespace LaudoFy

/-! ## Calendar dates and `calcularIdade` -/

/-- A calendar date in JavaScript convention: `month0` is 0-based (0 =
January … 11 = December), `day` is 1-based. -/
structure Data where
  year : Nat
  month0 : Nat
  day : Nat
deriving DecidableEq, Repr

/-- Gregorian leap-year rule. -/
def isLeap (y : Nat) : Bool :=
  y % 4 == 0 && (y % 100 != 0 || y % 400 == 0)

/-- Number of days of 0-based month `m0` in year `y`. -/
def daysInMonth (y m0 : Nat) : Nat :=
  if m0 = 1 then (if isLeap y then 29 else 28)
  else if m0 = 3 ∨ m0 = 5 ∨ m0 = 8 ∨ m0 = 10 then 30
  else 31

/-- A date is valid when the month index is below 12 and the day lies in
the month's range. -/
def Data.valid (d : Data) : Prop :=
  d.month0 < 12 ∧ 1 ≤ d.day ∧ d.day ≤ daysInMonth d.year d.month0

instance (d : Data) : Decidable d.valid := by
  unfold Data.valid; infer_instance

/-- The calendar day immediately before `d`. -/
def Data.pred (d : Data) : Data :=
  if 1 < d.day then ⟨d.year, d.month0, d.day - 1⟩
  else if 0 < d.month0 then ⟨d.year, d.month0 - 1, daysInMonth d.year (d.month0 - 1)⟩
  else ⟨d.year - 1, 11, 31⟩

/-- Embedding of `calcularIdade(dataNascimento)` from the laudo
controller, with "today" passed explicitly:

```js
let idade = hoje.getFullYear() - nascimento.getFullYear();
const m = hoje.getMonth() - nascimento.getMonth();
if (m < 0 || (m === 0 && hoje.getDate() < nascimento.getDate())) idade--;
return idade;
```
-/
def calcularIdade (hoje nascimento : Data) : Int :=
  let idade : Int := (hoje.year : Int) - (nascimento.year : Int)
  let m : Int := (hoje.month0 : Int) - (nascimento.month0 : Int)
  if m < 0 ∨ (m = 0 ∧ (hoje.day : Int) < (nascimento.day : Int)) then idade - 1
  else idade

/-! ## Password variants for signing (`gerarPdfLaudoAssinado`) -/

/-- JavaScript `String.prototype.trim()`: strip whitespace from both
ends (defined over the character list so that it evaluates in the
kernel). -/
def jsTrim (s : String) : String :=
  String.mk (((s.data.dropWhile Char.isWhitespace).reverse.dropWhile
    Char.isWhitespace).reverse)

/-- JavaScript `String.prototype.toLowerCase()`. -/
def jsToLower (s : String) : String :=
  String.mk (s.data.map Char.toLower)

/-- JavaScript `String.prototype.toUpperCase()`. -/
def jsToUpper (s : String) : String :=
  String.mk (s.data.map Char.toUpper)

/-- Embedding of the password-variant list built in
`gerarPdfLaudoAssinado`:

```js
const senhasParaTestar = [
  senhaOriginal,
  senhaOriginal?.trim(),
  senhaOriginal?.toLowerCase(),
  senhaOriginal?.toUpperCase(),
  ''
].filter(Boolean);
```

`senhaOriginal` may be absent (`none`); `filter(Boolean)` drops both the
absent entries and every empty string (JavaScript falsy values). -/
def senhasParaTestar (senhaOriginal : Option String) : List String :=
  ([senhaOriginal,
    senhaOriginal.map jsTrim,
    senhaOriginal.map jsToLower,
    senhaOriginal.map jsToUpper,
    some ""].filterMap id).filter (fun p => p ≠ "")

/-- The retry loop of `gerarPdfLaudoAssinado`: each variant is tried in
order, first validating the PKCS#12 with node-forge (`parseOk`) and then
signing the PDF (`signOk`); any exception moves on to the next variant,
and the first variant passing both is kept as `senhaCorreta`. -/
def tentarAssinatura (senhaOriginal : Option String)
    (parseOk signOk : String → Bool) : Option String :=
  (senhasParaTestar senhaOriginal).find? (fun p => parseOk p && signOk p)

/-! ## Data model

The mongoose schemas (`models/Laudo`, `models/Exame`,
`models/CertificadoDigital`) are not part of the source snapshot; the
records below collect exactly the fields that the controller and the
certificate service read and write, with nullable artifact pointers as
`Option` (spec §3).  Billing fields (`valorPago`, `pagamentoRegistrado`)
and usage telemetry (`totalAssinaturas`, `ultimoUso`) are omitted: no
claim mentions them.  History entries carry actor id/name, action,
detail and version as pushed by the controller (the automatic creation
timestamp is not modelled). -/

/-- One entry of a laudo's `historico` array. -/
structure HistoricoEntry where
  usuario : Nat
  nomeUsuario : String
  acao : String
  detalhes : String
  versao : Nat
deriving DecidableEq, Repr

/-- A report (laudo) row as manipulated by the laudo controller. -/
structure Laudo where
  id : Nat
  exame : Nat
  medicoResponsavelId : Nat
  medicoResponsavel : String
  conclusao : String
  status : String
  valido : Bool
  versao : Nat
  historico : List HistoricoEntry
  laudoOriginal : Option String
  laudoOriginalKey : Option String
  laudoAssinado : Option String
  laudoAssinadoKey : Option String
  arquivoPath : Option String
  assinadoDigitalmente : Bool
  assinadoCom : Option String
  certificadoId : Option Nat
  dataAssinatura : Option Nat
  codigoAcesso : String
  criadoPorId : Nat
  criadoPor : String
  tenantId : Nat
  tipoExameId : Nat
  especialidadeId : Option Nat
  createdAt : Nat
deriving DecidableEq, Repr

/-- An exam row (only the fields the laudo controller touches). -/
structure Exame where
  id : Nat
  paciente : Nat
  tipoExame : Nat
  status : String
  laudo : Option Nat
  tenantId : Nat
deriving DecidableEq, Repr

/-- A digital-certificate row (`CertificadoDigital`), with the decrypted
password as `senha`. -/
structure Certificado where
  id : Nat
  medicoId : Nat
  ativo : Bool
  dataVencimento : Nat
  fingerprint : String
  senha : Option String
deriving DecidableEq, Repr

/-- The persistent collections the modelled operations touch. -/
structure State where
  laudos : List Laudo
  exames : List Exame
  certificados : List Certificado
deriving DecidableEq, Repr

/-- HTTP-level outcome of a controller operation. -/
inductive HttpResponse where
  | ok (code : Nat) (mensagem : String)
  | erro (code : Nat) (mensagem : String)
deriving DecidableEq, Repr

/-- Result of a controller operation: the response, the final state and
the trace of laudo documents persisted by `save()` or
`findByIdAndUpdate` calls, in order. -/
structure OpResult where
  resp : HttpResponse
  state : State
  saves : List Laudo
deriving DecidableEq, Repr

/-- Outcomes of the external effects (node-forge parse, `@signpdf`
signature, S3 and UploadCare uploads, certificate file access, S3
delete), passed explicitly. -/
structure Oracle where
  parseOk : String → Bool
  signOk : String → Bool
  certArquivoOk : Bool
  s3Ok : Bool
  s3Url : String
  s3Key : String
  uploadcareOk : Bool
  uploadcareUrl : String
  deleteOk : Bool

/-- `Laudo.findById` / `findOne({_id})`. -/
def findLaudo (laudos : List Laudo) (id : Nat) : Option Laudo :=
  laudos.find? (fun l => l.id == id)

/-- `Exame.findById`. -/
def findExame (exames : List Exame) (id : Nat) : Option Exame :=
  exames.find? (fun e => e.id == id)

/-- Persisting an existing laudo document (`laudo.save()` /
`findByIdAndUpdate`): replaces the row with the matching id. -/
def saveLaudo (laudos : List Laudo) (l : Laudo) : List Laudo :=
  laudos.map (fun x => if x.id == l.id then l else x)

/-- Persisting an exam document. -/
def saveExame (exames : List Exame) (e : Exame) : List Exame :=
  exames.map (fun x => if x.id == e.id then e else x)

/-- `CertificadoDigital.findOne({ medicoId, ativo: true, dataVencimento:
{ $gt: now } })` — the active, unexpired certificate of a physician. -/
def findCertificadoAtivo (certs : List Certificado) (medicoId now : Nat) :
    Option Certificado :=
  certs.find? (fun c => c.medicoId == medicoId && c.ativo && decide (now < c.dataVencimento))

/-- `Laudo.findOne({ exame: exameId, valido: true })`. -/
def findLaudoValido (laudos : List Laudo) (exameId : Nat) : Option Laudo :=
  laudos.find? (fun l => l.exame == exameId && l.valido)

/-- Number of currently-valid laudos pointing at an exam. -/
def validosParaExame (s : State) (exameId : Nat) : Nat :=
  (s.laudos.filter (fun l => l.exame == exameId && l.valido)).length

/-! ## Certificate service (`certificadoDigitalService.js`) -/

/-- The metadata `analisarCertificado` extracts from a PKCS#12 buffer
and password (subject name, expiry, SHA-256 fingerprint); callers pass
the analysis outcome explicitly (`none` when the parse throws). -/
structure CertificadoInfo where
  nomeCertificado : String
  dataVencimento : Nat
  fingerprint : String
deriving DecidableEq, Repr

/-- Embedding of `registrarCertificado(medicoId, arquivo, senha)`:
rejects when the physician already has an active unexpired certificate,
when the analysis fails, when the analysed certificate is expired, or
when the fingerprint already exists (over all rows, active or not);
otherwise inserts the new row, active by default. -/
def registrarCertificado (store : List Certificado) (medicoId : Nat)
    (analise : Option CertificadoInfo) (senha : String) (newId now : Nat) :
    Except String (List Certificado) :=
  if (findCertificadoAtivo store medicoId now).isSome then
    .error "Já existe um certificado ativo para este médico. Desative o atual antes de cadastrar um novo."
  else
    match analise with
    | none => .error "Erro ao analisar certificado"
    | some info =>
      if info.dataVencimento ≤ now then
        .error "O certificado fornecido está vencido"
      else if (store.find? (fun c => c.fingerprint == info.fingerprint)).isSome then
        .error "Este certificado já está cadastrado no sistema"
      else
        .ok (store ++ [{ id := newId, medicoId := medicoId, ativo := true,
                         dataVencimento := info.dataVencimento,
                         fingerprint := info.fingerprint, senha := some senha }])

/-- Embedding of `removerCertificado(certificadoId, medicoId)`: finds
the row by id and owner, flips `ativo` to `false` and keeps the row
(file unlink is best-effort and does not affect the store). -/
def removerCertificado (store : List Certificado) (certificadoId medicoId : Nat) :
    Except String (List Certificado) :=
  match store.find? (fun c => c.id == certificadoId && c.medicoId == medicoId) with
  | none => .error "Certificado não encontrado"
  | some _ =>
    .ok (store.map (fun c => if c.id == certificadoId then { c with ativo := false } else c))

/-- What `obterCertificadoParaAssinatura` hands to the signing code. -/
structure CertificadoParaAssinatura where
  certificadoId : Nat
  senha : Option String
deriving DecidableEq, Repr

/-- Embedding of `obterCertificadoParaAssinatura(medicoId)`: finds the
active unexpired certificate, re-checks expiry, loads the encrypted
PKCS#12 file (`arquivoOk` is the file-system outcome) and returns the
buffer together with the decrypted stored password. -/
def obterCertificadoParaAssinatura (certs : List Certificado) (medicoId now : Nat)
    (arquivoOk : Bool) : Except String CertificadoParaAssinatura :=
  match findCertificadoAtivo certs medicoId now with
  | none => .error "Nenhum certificado ativo encontrado para este médico"
  | some c =>
    if c.dataVencimento ≤ now then .error "O certificado está vencido"
    else if !arquivoOk then .error "Erro ao carregar certificado do sistema de arquivos"
    else .ok { certificadoId := c.id, senha := c.senha }

/-! ## Signing pipeline (`gerarPdfLaudoAssinado`) -/

/-- The object `gerarPdfLaudoAssinado` resolves with.  `signed` mirrors
the JavaScript result shape: the field is present (and `false`) only on
the signing-failure fallback paths; the successfully signed and the
no-certificate paths do not set it. -/
structure GerarPdfResult where
  success : Bool
  fileUrl : String
  s3Key : Option String
  assinadoCom : Option String
  certificadoId : Option Nat
  signed : Option Bool
  storage : String
deriving DecidableEq, Repr

/-- The unsigned-PDF fallback of `gerarPdfLaudoAssinado` (no certificate
available, or signing failed): uploads the unsigned buffer to S3, then
to UploadCare, and propagates the error when both fail. -/
def uploadSemAssinatura (o : Oracle) (assinadoCom : Option String)
    (signed : Option Bool) : Except String GerarPdfResult :=
  if o.s3Ok then
    .ok { success := true, fileUrl := o.s3Url, s3Key := some o.s3Key,
          assinadoCom := assinadoCom, certificadoId := none,
          signed := signed, storage := "s3" }
  else if o.uploadcareOk then
    .ok { success := true, fileUrl := o.uploadcareUrl, s3Key := none,
          assinadoCom := assinadoCom, certificadoId := none,
          signed := signed, storage := "uploadcare" }
  else
    .error "Erro na assinatura digital"

/-- Embedding of `gerarPdfLaudoAssinado`'s decision structure (the PDF
rendering itself always yields a buffer).  When the physician's
certificate cannot be obtained, the unsigned PDF is uploaded with
`assinadoCom: 'sem_assinatura'`.  Otherwise the password-variant loop
runs; on a working variant the signed PDF goes to S3 with UploadCare as
fallback, and any failure inside that block — no variant working, or
both uploads of the signed PDF failing — falls into `catch (signError)`,
which stores the *unsigned* buffer with `signed: false` and still
resolves successfully when a store accepts it. -/
def gerarPdfLaudoAssinado (certs : List Certificado) (medicoId now : Nat)
    (o : Oracle) : Except String GerarPdfResult :=
  match obterCertificadoParaAssinatura certs medicoId now o.certArquivoOk with
  | .error _ => uploadSemAssinatura o (some "sem_assinatura") none
  | .ok cert =>
    match tentarAssinatura cert.senha o.parseOk o.signOk with
    | some _ =>
      if o.s3Ok then
        .ok { success := true, fileUrl := o.s3Url, s3Key := some o.s3Key,
              assinadoCom := some "certificado_medico",
              certificadoId := some cert.certificadoId,
              signed := none, storage := "s3" }
      else if o.uploadcareOk then
        .ok { success := true, fileUrl := o.uploadcareUrl, s3Key := none,
              assinadoCom := some "certificado_medico",
              certificadoId := some cert.certificadoId,
              signed := none, storage := "uploadcare" }
      else
        uploadSemAssinatura o none (some false)
    | none => uploadSemAssinatura o none (some false)

/-! ## Report lifecycle controller -/

/-- Embedding of `criarLaudo` (creation).  Validates inputs, requires
the exam to exist and to have no currently-valid laudo, persists the new
laudo with status `'Laudo pronto para assinatura'` and `valido: true`,
then best-effort renders and uploads the original (unsigned) PDF —
`pdfOrigOk` is the render outcome; render or upload failures are
swallowed — and finally repoints the exam.  `especialidadeId` stands for
the acting physician's first specialty. -/
def criarLaudo (s : State) (exameId : Nat) (conclusao : String)
    (usuarioId : Nat) (usuarioNome : String) (especialidadeId : Option Nat)
    (newLaudoId now : Nat) (codigoAcesso : String) (pdfOrigOk : Bool)
    (o : Oracle) : OpResult :=
  if exameId == 0 || conclusao == "" then
    { resp := .erro 400 "Exame e conclusão são obrigatórios", state := s, saves := [] }
  else
    match findExame s.exames exameId with
    | none => { resp := .erro 404 "Exame não encontrado", state := s, saves := [] }
    | some exame =>
      if (findLaudoValido s.laudos exameId).isSome then
        { resp := .erro 400 "Já existe um laudo válido para este exame",
          state := s, saves := [] }
      else
        let certificadoAtivo := findCertificadoAtivo s.certificados usuarioId now
        let laudo0 : Laudo :=
          { id := newLaudoId, exame := exameId,
            medicoResponsavelId := usuarioId, medicoResponsavel := usuarioNome,
            conclusao := conclusao, status := "Laudo pronto para assinatura",
            valido := true, versao := 1, historico := [],
            laudoOriginal := none, laudoOriginalKey := none,
            laudoAssinado := none, laudoAssinadoKey := none,
            arquivoPath := none, assinadoDigitalmente := false,
            assinadoCom := none, certificadoId := none, dataAssinatura := none,
            codigoAcesso := codigoAcesso, criadoPorId := usuarioId,
            criadoPor := usuarioNome, tenantId := exame.tenantId,
            tipoExameId := exame.tipoExame, especialidadeId := especialidadeId,
            createdAt := now }
        let laudos1 := s.laudos ++ [laudo0]
        let withPdf := pdfOrigOk && o.s3Ok
        let laudo1 := if withPdf then
            { laudo0 with laudoOriginalKey := some o.s3Key, laudoOriginal := some o.s3Url }
          else laudo0
        let laudos2 := if withPdf then saveLaudo laudos1 laudo1 else laudos1
        let exame1 := { exame with
          status := if certificadoAtivo.isSome then "Laudo pronto para assinatura"
                    else "Laudo realizado",
          laudo := some newLaudoId }
        { resp := .ok 201 (if certificadoAtivo.isSome then
            "Laudo criado! Você pode assinar automaticamente ou fazer upload do laudo assinado."
          else "Laudo criado! Faça upload do laudo assinado para finalizar."),
          state := { s with laudos := laudos2, exames := saveExame s.exames exame1 },
          saves := if withPdf then [laudo0, laudo1] else [laudo0] }

/-- Embedding of `invalidarLaudo`: a bare `findByIdAndUpdate` setting
`valido: false` and `status: 'Invalidado'`. -/
def invalidarLaudo (s : State) (laudoId : Nat) : OpResult :=
  match findLaudo s.laudos laudoId with
  | none => { resp := .erro 404 "Laudo não encontrado", state := s, saves := [] }
  | some l =>
    let l1 := { l with valido := false, status := "Invalidado" }
    { resp := .ok 200 "Laudo invalidado com sucesso",
      state := { s with laudos := saveLaudo s.laudos l1 }, saves := [l1] }

/-- The laudo update shared by `assinarLaudoAutomaticamente` and
`assinarLaudoManual` after a successful `gerarPdfLaudoAssinado`: take
the S3 key when present, best-effort delete the original artifact
(clearing its key only when the delete succeeded), mark the laudo signed
and append the history entry. -/
def aplicarAssinatura (l : Laudo) (r : GerarPdfResult) (usuarioId : Nat)
    (usuarioNome detalhes : String) (now : Nat) (deleteOk : Bool) : Laudo :=
  { l with
    laudoAssinadoKey := (match r.s3Key with | some k => some k | none => l.laudoAssinadoKey),
    laudoOriginalKey := if l.laudoOriginalKey.isSome && deleteOk then none
                        else l.laudoOriginalKey,
    arquivoPath := some r.fileUrl,
    assinadoDigitalmente := true,
    assinadoCom := r.assinadoCom,
    certificadoId := r.certificadoId,
    status := "Laudo assinado",
    dataAssinatura := some now,
    historico := l.historico ++
      [{ usuario := usuarioId, nomeUsuario := usuarioNome, acao := "Assinatura",
         detalhes := detalhes, versao := l.versao }] }

/-- Updating the linked exam to `'Laudo realizado'` after signing. -/
def atualizarExamePosAssinatura (s : State) (exameId : Nat) : State :=
  match findExame s.exames exameId with
  | none => s
  | some e => { s with exames := saveExame s.exames { e with status := "Laudo realizado" } }

/-- Embedding of `assinarLaudoAutomaticamente` (explicit Sign, automatic
trigger): permission and status guards, active-certificate guard, then
the PDF pipeline; on a resolved pipeline the laudo is marked signed and
saved, and the exam updated. -/
def assinarLaudoAutomaticamente (s : State) (laudoId usuarioId : Nat)
    (usuarioNome : String) (now : Nat) (o : Oracle) : OpResult :=
  match findLaudo s.laudos laudoId with
  | none => { resp := .erro 404 "Laudo não encontrado", state := s, saves := [] }
  | some l =>
    if l.medicoResponsavelId != usuarioId then
      { resp := .erro 403 "Você não tem permissão para assinar este laudo",
        state := s, saves := [] }
    else if !(["Laudo pronto para assinatura", "Laudo realizado"].contains l.status) then
      { resp := .erro 400 "Este laudo não pode ser assinado automaticamente",
        state := s, saves := [] }
    else if (findCertificadoAtivo s.certificados usuarioId now).isNone then
      { resp := .erro 400 "Você não possui um certificado digital ativo. Cadastre um certificado ou faça upload do laudo assinado.",
        state := s, saves := [] }
    else
      match gerarPdfLaudoAssinado s.certificados usuarioId now o with
      | .error _ => { resp := .erro 500 "Erro interno do servidor", state := s, saves := [] }
      | .ok r =>
        if !r.success then
          { resp := .erro 500 "Erro ao gerar PDF assinado", state := s, saves := [] }
        else
          let l1 := aplicarAssinatura l r usuarioId usuarioNome
            "Laudo assinado automaticamente com certificado digital" now o.deleteOk
          let s1 := { s with laudos := saveLaudo s.laudos l1 }
          { resp := .ok 200 "Laudo assinado automaticamente com sucesso!",
            state := atualizarExamePosAssinatura s1 l.exame, saves := [l1] }

/-- Embedding of `assinarLaudoManual` (explicit Sign, manual trigger):
identical pipeline, with its own status guard and messages. -/
def assinarLaudoManual (s : State) (laudoId usuarioId : Nat)
    (usuarioNome : String) (now : Nat) (o : Oracle) : OpResult :=
  match findLaudo s.laudos laudoId with
  | none => { resp := .erro 404 "Laudo não encontrado", state := s, saves := [] }
  | some l =>
    if l.medicoResponsavelId != usuarioId then
      { resp := .erro 403 "Você não tem permissão para assinar este laudo",
        state := s, saves := [] }
    else if !(["Laudo pronto para assinatura", "Laudo realizado"].contains l.status) then
      { resp := .erro 400 "Este laudo não pode ser assinado", state := s, saves := [] }
    else if (findCertificadoAtivo s.certificados usuarioId now).isNone then
      { resp := .erro 400 "Você não possui um certificado digital ativo. Cadastre um certificado primeiro.",
        state := s, saves := [] }
    else
      match gerarPdfLaudoAssinado s.certificados usuarioId now o with
      | .error _ => { resp := .erro 500 "Erro interno do servidor", state := s, saves := [] }
      | .ok r =>
        if !r.success then
          { resp := .erro 500 "Erro ao gerar PDF assinado", state := s, saves := [] }
        else
          let l1 := aplicarAssinatura l r usuarioId usuarioNome
            "Laudo assinado manualmente com certificado digital" now o.deleteOk
          let s1 := { s with laudos := saveLaudo s.laudos l1 }
          { resp := .ok 200 "Laudo assinado com sucesso!",
            state := atualizarExamePosAssinatura s1 l.exame, saves := [l1] }

/-- The uploaded file as `multer` presents it. -/
structure ArquivoUpload where
  mimetype : String
  size : Nat
deriving DecidableEq, Repr

/-- The laudo update `uploadLaudoAssinado` persists: records the S3 key
only when the S3 upload succeeded (the UploadCare fallback stores its
URL only in `arquivoPath`), best-effort deletes the original artifact,
marks the laudo signed via manual upload and appends the history
entry. -/
def aplicarUploadManual (l : Laudo) (uploadUrl : String) (s3Key : Option String)
    (usuarioId : Nat) (usuarioNome : String) (now : Nat) (deleteOk : Bool) : Laudo :=
  { l with
    laudoAssinadoKey := (match s3Key with | some k => some k | none => l.laudoAssinadoKey),
    laudoOriginalKey := if l.laudoOriginalKey.isSome && deleteOk then none
                        else l.laudoOriginalKey,
    arquivoPath := some uploadUrl,
    assinadoDigitalmente := false,
    assinadoCom := some "upload_manual",
    status := "Laudo assinado",
    dataAssinatura := some now,
    historico := l.historico ++
      [{ usuario := usuarioId, nomeUsuario := usuarioNome, acao := "Assinatura",
         detalhes := "Laudo assinado via upload manual", versao := l.versao }] }

/-- Embedding of `uploadLaudoAssinado` (caller-supplied signed PDF):
mime-type and permission guards, S3 upload with UploadCare fallback
(only the S3 path yields a storage key — the UploadCare URL goes to
`arquivoPath` only), best-effort delete of the original, then the laudo
is marked signed via manual upload. -/
def uploadLaudoAssinado (s : State) (laudoId usuarioId : Nat)
    (usuarioNome : String) (file : Option ArquivoUpload) (now : Nat)
    (o : Oracle) : OpResult :=
  match file with
  | none => { resp := .erro 400 "Arquivo PDF é obrigatório", state := s, saves := [] }
  | some f =>
    if f.mimetype != "application/pdf" then
      { resp := .erro 400 "Apenas arquivos PDF são aceitos", state := s, saves := [] }
    else
      match findLaudo s.laudos laudoId with
      | none => { resp := .erro 404 "Laudo não encontrado", state := s, saves := [] }
      | some l =>
        if l.medicoResponsavelId != usuarioId then
          { resp := .erro 403 "Você não tem permissão para fazer upload neste laudo",
            state := s, saves := [] }
        else if !(["Laudo pronto para assinatura", "Laudo realizado"].contains l.status) then
          { resp := .erro 400 "Este laudo não pode receber upload", state := s, saves := [] }
        else if !o.s3Ok && !o.uploadcareOk then
          { resp := .erro 500 "Erro interno do servidor", state := s, saves := [] }
        else
          let uploadUrl := if o.s3Ok then o.s3Url else o.uploadcareUrl
          let s3Key : Option String := if o.s3Ok then some o.s3Key else none
          let l1 := aplicarUploadManual l uploadUrl s3Key usuarioId usuarioNome
            now o.deleteOk
          let s1 := { s with laudos := saveLaudo s.laudos l1 }
          { resp := .ok 200 "Laudo assinado enviado com sucesso!",
            state := atualizarExamePosAssinatura s1 l.exame, saves := [l1] }

/-- The history entry `refazerLaudo` appends to the copied history. -/
def entradaRefacao (usuarioId : Nat) (usuarioNome : String)
    (historicoOriginal : List HistoricoEntry) : HistoricoEntry :=
  { usuario := usuarioId, nomeUsuario := usuarioNome, acao := "Refação",
    detalhes := "Laudo refeito", versao := historicoOriginal.length + 1 }

/-- The new laudo row `refazerLaudo` builds from the original: same
exam, conclusion overridden when supplied, status `'Laudo assinado'`
and `valido: true` from the start, history copied plus the `'Refação'`
entry, and no artifact pointers yet. -/
def novoLaudoRefacao (orig : Laudo) (conclusao : Option String)
    (usuarioId : Nat) (usuarioNome : String) (tenantId newLaudoId now : Nat)
    (codigoAcesso : String) : Laudo :=
  { id := newLaudoId, exame := orig.exame,
    medicoResponsavelId := usuarioId, medicoResponsavel := usuarioNome,
    conclusao := conclusao.getD orig.conclusao,
    status := "Laudo assinado", valido := true, versao := 1,
    historico := orig.historico ++ [entradaRefacao usuarioId usuarioNome orig.historico],
    laudoOriginal := none, laudoOriginalKey := none,
    laudoAssinado := none, laudoAssinadoKey := none,
    arquivoPath := none, assinadoDigitalmente := false,
    assinadoCom := none, certificadoId := none, dataAssinatura := none,
    codigoAcesso := codigoAcesso, criadoPorId := usuarioId,
    criadoPor := usuarioNome, tenantId := tenantId,
    tipoExameId := orig.tipoExameId, especialidadeId := orig.especialidadeId,
    createdAt := now }

/-- Embedding of `refazerLaudo`: loads the original laudo, builds the
new laudo row (`novoLaudoRefacao`), saves it, repoints the exam, then
runs the signing pipeline; on success the legacy signed URL and
signature date are set and saved, on failure the new laudo is flagged
`'Erro ao gerar PDF'`.  The original laudo row is never written. -/
def refazerLaudo (s : State) (laudoId : Nat) (conclusao : Option String)
    (usuarioId : Nat) (usuarioNome : String) (tenantId newLaudoId now : Nat)
    (codigoAcesso : String) (o : Oracle) : OpResult :=
  match findLaudo s.laudos laudoId with
  | none => { resp := .erro 404 "Laudo original não encontrado", state := s, saves := [] }
  | some orig =>
    let novo : Laudo :=
      novoLaudoRefacao orig conclusao usuarioId usuarioNome tenantId newLaudoId
        now codigoAcesso
    let laudos1 := s.laudos ++ [novo]
    let exames1 := match findExame s.exames orig.exame with
      | none => s.exames
      | some e => saveExame s.exames { e with laudo := some newLaudoId,
                                              status := "Laudo realizado" }
    match gerarPdfLaudoAssinado s.certificados usuarioId now o with
    | .error _ =>
      let novoErr := { novo with status := "Erro ao gerar PDF" }
      { resp := .erro 500 "Erro ao refazer laudo",
        state := { s with laudos := saveLaudo laudos1 novoErr, exames := exames1 },
        saves := [novo, novoErr] }
    | .ok r =>
      let novo2 := { novo with laudoAssinado := some r.fileUrl, dataAssinatura := some now }
      { resp := .ok 201 "Laudo refeito e assinado com sucesso",
        state := { s with laudos := saveLaudo laudos1 novo2, exames := exames1 },
        saves := [novo, novo2] }

/-! ## Public view (`visualizarLaudoPublico`) -/

/-- The decrypted aggregate `obterLaudoPorId` returns (laudo populated
with exam, patient, exam type and physician).  The Mongo object id is a
hex string, kept as `idStr` for the validation-code slice. -/
structure LaudoCompleto where
  idStr : String
  versao : Nat
  status : String
  createdAt : Nat
  laudoOriginal : Option String
  laudoOriginalKey : Option String
  laudoAssinado : Option String
  laudoAssinadoKey : Option String
  assinadoDigitalmente : Bool
  assinadoCom : Option String
  dataAssinatura : Option Nat
  conclusao : String
  medicoResponsavel : String
  medicoResponsavelId : Nat
  pacienteId : Nat
  pacienteNome : String
  pacienteDataNascimento : Option Data
  exameId : Nat
  tipoExameNome : String
  dataExame : Option Nat
  tenantId : Nat
deriving DecidableEq, Repr

/-- The sanitized payload `visualizarLaudoPublico` responds with. -/
structure LaudoPublico where
  id : String
  codigoValidacao : String
  versao : Nat
  status : String
  dataEmissao : Nat
  temPdfAssinado : Bool
  assinadoDigitalmente : Bool
  assinadoCom : String
  dataAssinatura : Option Nat
  pacienteNome : String
  pacienteIdade : Option Int
  pacienteDataNascimento : Option Data
  exameTipo : String
  exameData : Option Nat
  conclusao : String
  medico : String
deriving DecidableEq, Repr

/-- Embedding of the projection built by `visualizarLaudoPublico`
(`hoje` is the current date used by `calcularIdade`):
`codigoValidacao` is the report id's last eight characters upper-cased,
`temPdfAssinado` the presence flag of the signed artifact pointers, and
missing names degrade to placeholder strings. -/
def visualizarLaudoPublico (lc : LaudoCompleto) (hoje : Data) : LaudoPublico :=
  { id := lc.idStr,
    codigoValidacao := (lc.idStr.drop (lc.idStr.length - 8)).toUpper,
    versao := lc.versao,
    status := if lc.status == "Laudo assinado" then "ativo" else "inativo",
    dataEmissao := lc.createdAt,
    temPdfAssinado := lc.laudoAssinado.isSome || lc.laudoAssinadoKey.isSome,
    assinadoDigitalmente := lc.assinadoDigitalmente,
    assinadoCom := lc.assinadoCom.getD "sem_assinatura",
    dataAssinatura := lc.dataAssinatura,
    pacienteNome := if lc.pacienteNome == "" then "Não informado" else lc.pacienteNome,
    pacienteIdade := lc.pacienteDataNascimento.map (fun d => calcularIdade hoje d),
    pacienteDataNascimento := lc.pacienteDataNascimento,
    exameTipo := if lc.tipoExameNome == "" then "Não informado" else lc.tipoExameNome,
    exameData := lc.dataExame,
    conclusao := lc.conclusao,
    medico := if lc.medicoResponsavel == "" then "Médico não informado"
              else lc.medicoResponsavel }

/-! ## Concrete fixtures for counterexamples and witnesses -/

/-- A pending laudo: valid, unsigned, no artifacts, empty history. -/
def laudoBase : Laudo :=
  { id := 1, exame := 1, medicoResponsavelId := 7, medicoResponsavel := "Dr. A",
    conclusao := "Normal", status := "Laudo pronto para assinatura",
    valido := true, versao := 1, historico := [],
    laudoOriginal := none, laudoOriginalKey := none,
    laudoAssinado := none, laudoAssinadoKey := none, arquivoPath := none,
    assinadoDigitalmente := false, assinadoCom := none, certificadoId := none,
    dataAssinatura := none, codigoAcesso := "1234", criadoPorId := 7,
    criadoPor := "Dr. A", tenantId := 1, tipoExameId := 1,
    especialidadeId := none, createdAt := 0 }

/-- The exam `laudoBase` belongs to. -/
def exameBase : Exame :=
  { id := 1, paciente := 1, tipoExame := 1, status := "Laudo realizado",
    laudo := some 1, tenantId := 1 }

/-- An active certificate of physician 7 expiring at time 100, stored
password "pw". -/
def certBase : Certificado :=
  { id := 5, medicoId := 7, ativo := true, dataVencimento := 100,
    fingerprint := "FP1", senha := some "pw" }

/-- Base state: one pending valid laudo, its exam, one active
certificate. -/
def stateBase : State :=
  { laudos := [laudoBase], exames := [exameBase], certificados := [certBase] }

/-- Oracle where every external effect succeeds and the password "pw"
both parses the PKCS#12 and signs. -/
def oracleOk : Oracle :=
  { parseOk := fun p => p == "pw", signOk := fun p => p == "pw",
    certArquivoOk := true, s3Ok := true,
    s3Url := "https://s3.example/laudo.pdf",
    s3Key := "tenant1/laudo/assinado.pdf", uploadcareOk := true,
    uploadcareUrl := "https://ucarecdn.example/laudo.pdf", deleteOk := true }

/-- Oracle where no password variant parses or signs, but storage
works. -/
def oracleAssinaturaFalha : Oracle :=
  { oracleOk with parseOk := fun _ => false, signOk := fun _ => false }

/-- Oracle where S3 fails and UploadCare succeeds. -/
def oracleSemS3 : Oracle := { oracleOk with s3Ok := false }

/-- Oracle where both storage backends fail. -/
def oracleSemStorage : Oracle := { oracleOk with s3Ok := false, uploadcareOk := false }

/-! ## Theorems -/

/-- Claim C6: for every valid birth date, `calcularIdade` matches the
conventional calendar age — on the N-th birthday (today has the birth
month and day, N years later) the computed age is N, not N − 1, and on
the day immediately before that birthday it is N − 1. -/
theorem calcularIdade_idade_convencional (nasc : Data) (N : Nat)
    (hN : 1 ≤ N) (hv : nasc.valid) :
    calcularIdade ⟨nasc.year + N, nasc.month0, nasc.day⟩ nasc = (N : Int) ∧
    (Data.valid ⟨nasc.year + N, nasc.month0, nasc.day⟩ →
      calcularIdade (Data.pred ⟨nasc.year + N, nasc.month0, nasc.day⟩) nasc
        = (N : Int) - 1) := by
  obtain ⟨hm, hd1, hd2⟩ := hv
  refine ⟨?_, fun _ => ?_⟩
  · simp only [calcularIdade]
    split_ifs with h
    · omega
    · omega
  · simp only [Data.pred]
    split_ifs with h1 h2
    · simp only [calcularIdade]
      split_ifs <;> omega
    · simp only [calcularIdade]
      split_ifs <;> omega
    · simp only [calcularIdade]
      split_ifs <;> omega

/-- Witness for C6 at a leap-year boundary: born 1980-02-29, on the
40th birthday (2020-02-29) the age is 40, on 2020-02-28 it is 39. -/
theorem calcularIdade_idade_convencional_witness :
    calcularIdade ⟨1980 + 40, 1, 29⟩ ⟨1980, 1, 29⟩ = (40 : Int) ∧
    calcularIdade (Data.pred ⟨1980 + 40, 1, 29⟩) ⟨1980, 1, 29⟩ = (40 : Int) - 1 := by
  have h := calcularIdade_idade_convencional ⟨1980, 1, 29⟩ 40 (by decide) (by decide)
  exact ⟨h.1, h.2 (by decide)⟩

/-- Claim C3 counterexample: the variant list is built with
`filter(Boolean)`, which removes the empty string (a JavaScript falsy
value); for the stored password "abc" the tried variants are exactly
`["abc", "abc", "abc", "ABC"]` and the empty-string variant the claim
describes is never attempted. -/
theorem senhasParaTestar_sem_variante_vazia :
    senhasParaTestar (some "abc") = ["abc", "abc", "abc", "ABC"] ∧
    "" ∉ senhasParaTestar (some "abc") := by
  constructor
  · decide
  · decide

/-- Claim C3 (amended): for a stored password the engine tries, in
order, the variants original, trimmed, lower-cased and upper-cased —
the empty-string variant is dropped by `filter(Boolean)`, as is any
variant that is the empty string — and accepts the first variant that
both parses the PKCS#12 and completes the signature; in particular,
when the trimmed password is non-empty, parses and signs, the loop
succeeds with a working variant even if the stored string carries
incidental whitespace. -/
theorem senhasParaTestar_variantes (s : String) (parseOk signOk : String → Bool)
    (hp : parseOk (jsTrim s) = true) (hs : signOk (jsTrim s) = true)
    (hne : jsTrim s ≠ "") :
    senhasParaTestar (some s) =
      [s, jsTrim s, jsToLower s, jsToUpper s].filter (fun p => p ≠ "") ∧
    ∃ p, tentarAssinatura (some s) parseOk signOk = some p ∧
      parseOk p = true ∧ signOk p = true := by
  have hlist : senhasParaTestar (some s) =
      [s, jsTrim s, jsToLower s, jsToUpper s].filter (fun p => p ≠ "") := by
    have hsplit : ([some s, some (jsTrim s), some (jsToLower s), some (jsToUpper s),
        some ""].filterMap id) = [s, jsTrim s, jsToLower s, jsToUpper s] ++ [""] := by
      simp [List.filterMap_cons]
    simp only [senhasParaTestar, Option.map_some']
    rw [hsplit, List.filter_append]
    simp
  refine ⟨hlist, ?_⟩
  have hmem : jsTrim s ∈ senhasParaTestar (some s) := by
    rw [hlist]
    refine List.mem_filter.mpr ⟨?_, by simpa using hne⟩
    simp
  have hfind : ((senhasParaTestar (some s)).find?
      (fun p => parseOk p && signOk p)).isSome := by
    rw [List.find?_isSome]
    exact ⟨jsTrim s, hmem, by simp [hp, hs]⟩
  obtain ⟨p, hpEq⟩ := Option.isSome_iff_exists.mp hfind
  have hprop := List.find?_some hpEq
  simp only [Bool.and_eq_true] at hprop
  exact ⟨p, hpEq, hprop.1, hprop.2⟩

/-- `validosParaExame` only reads the laudo collection, which
`atualizarExamePosAssinatura` never changes. -/
theorem validosParaExame_atualizarExame (s : State) (ex e : Nat) :
    validosParaExame (atualizarExamePosAssinatura s ex) e = validosParaExame s e := by
  unfold atualizarExamePosAssinatura
  cases findExame s.exames ex <;> rfl

/-- Replacing a stored laudo by an update with the same id, exam and
validity leaves every per-exam valid count unchanged (ids assumed
unique, as Mongo `_id`s are). -/
theorem validosParaExame_saveLaudo_eq (s : State) (l l1 : Laudo) (e : Nat)
    (hmem : l ∈ s.laudos) (hid : l1.id = l.id) (hex : l1.exame = l.exame)
    (hval : l1.valido = l.valido)
    (hnodup : (s.laudos.map Laudo.id).Nodup) :
    validosParaExame { s with laudos := saveLaudo s.laudos l1 } e
      = validosParaExame s e := by
  unfold validosParaExame saveLaudo
  simp only [← List.countP_eq_length_filter, List.countP_map]
  refine List.countP_congr (fun x hx => ?_)
  by_cases hP : x.id = l1.id
  · have hxl : x = l := List.inj_on_of_nodup_map hnodup hx hmem (by rw [hP, hid])
    subst hxl
    simp [hP, hex, hval]
  · simp [hP]

/-- Replacing a stored laudo by an invalidated update can only lower
every per-exam valid count. -/
theorem validosParaExame_saveLaudo_le (s : State) (l1 : Laudo) (e : Nat)
    (hval : l1.valido = false) :
    validosParaExame { s with laudos := saveLaudo s.laudos l1 } e
      ≤ validosParaExame s e := by
  unfold validosParaExame saveLaudo
  simp only [← List.countP_eq_length_filter, List.countP_map]
  refine List.countP_mono_left (fun x hx hpx => ?_)
  by_cases hP : x.id = l1.id
  · simp [hP, hval] at hpx
  · simp [hP] at hpx ⊢
    exact hpx

/-- Automatic signing never changes the number of valid laudos of any
exam: every failure path leaves the state untouched, and the success
path rewrites the laudo with the same id, exam and validity. -/
theorem assinarAutomaticamente_preserva_validos (s : State)
    (laudoId usuarioId : Nat) (usuarioNome : String) (now : Nat) (o : Oracle)
    (hnodup : (s.laudos.map Laudo.id).Nodup) (e : Nat) :
    validosParaExame (assinarLaudoAutomaticamente s laudoId usuarioId
      usuarioNome now o).state e = validosParaExame s e := by
  unfold assinarLaudoAutomaticamente
  split
  next => rfl
  next l hfl =>
    split
    next => rfl
    next =>
      split
      next => rfl
      next =>
        split
        next => rfl
        next =>
          split
          next => rfl
          next r hg =>
            split
            next => rfl
            next =>
              dsimp only
              rw [validosParaExame_atualizarExame]
              exact validosParaExame_saveLaudo_eq s l _ e
                (List.mem_of_find?_eq_some hfl) rfl rfl rfl hnodup

/-- Manual signing preserves the valid-laudo counts (same argument). -/
theorem assinarManual_preserva_validos (s : State)
    (laudoId usuarioId : Nat) (usuarioNome : String) (now : Nat) (o : Oracle)
    (hnodup : (s.laudos.map Laudo.id).Nodup) (e : Nat) :
    validosParaExame (assinarLaudoManual s laudoId usuarioId
      usuarioNome now o).state e = validosParaExame s e := by
  unfold assinarLaudoManual
  split
  next => rfl
  next l hfl =>
    split
    next => rfl
    next =>
      split
      next => rfl
      next =>
        split
        next => rfl
        next =>
          split
          next => rfl
          next r hg =>
            split
            next => rfl
            next =>
              dsimp only
              rw [validosParaExame_atualizarExame]
              exact validosParaExame_saveLaudo_eq s l _ e
                (List.mem_of_find?_eq_some hfl) rfl rfl rfl hnodup

/-- Manual upload of a signed PDF preserves the valid-laudo counts. -/
theorem uploadLaudoAssinado_preserva_validos (s : State)
    (laudoId usuarioId : Nat) (usuarioNome : String)
    (file : Option ArquivoUpload) (now : Nat) (o : Oracle)
    (hnodup : (s.laudos.map Laudo.id).Nodup) (e : Nat) :
    validosParaExame (uploadLaudoAssinado s laudoId usuarioId
      usuarioNome file now o).state e = validosParaExame s e := by
  unfold uploadLaudoAssinado
  split
  next => rfl
  next f =>
    split
    next => rfl
    next =>
      split
      next => rfl
      next l hfl =>
        split
        next => rfl
        next =>
          split
          next => rfl
          next =>
            split
            next => rfl
            next =>
              dsimp only
              rw [validosParaExame_atualizarExame]
              exact validosParaExame_saveLaudo_eq s l _ e
                (List.mem_of_find?_eq_some hfl) rfl rfl rfl hnodup

/-- Invalidation can only lower the number of valid laudos of an
exam. -/
theorem invalidarLaudo_nao_aumenta_validos (s : State) (laudoId e : Nat) :
    validosParaExame (invalidarLaudo s laudoId).state e ≤ validosParaExame s e := by
  unfold invalidarLaudo
  split
  next => exact Nat.le_refl _
  next l hfl =>
    dsimp only
    exact validosParaExame_saveLaudo_le s _ e rfl

/-- Appending a fresh laudo and then saving an update of it (same id)
adds exactly one laudo satisfying the filter, when the update satisfies
it. -/
theorem length_filter_saveLaudo_append (laudos : List Laudo) (novo novo2 : Laudo)
    (hid : novo.id = novo2.id) (hfresh : ∀ x ∈ laudos, x.id ≠ novo2.id)
    (p : Laudo → Bool) (hp : p novo2 = true) :
    ((saveLaudo (laudos ++ [novo]) novo2).filter p).length
      = (laudos.filter p).length + 1 := by
  unfold saveLaudo
  rw [List.map_append, List.filter_append]
  have hcong : ∀ x ∈ laudos, (if x.id == novo2.id then novo2 else x) = x :=
    fun x hx => if_neg (by simpa using hfresh x hx)
  have h1 : (laudos.map fun x => if x.id == novo2.id then novo2 else x) = laudos := by
    rw [List.map_congr_left hcong]
    simp
  rw [h1]
  simp [hid, hp]

/-- Claim C1 (amended): Create rejects a new laudo while the exam
already has a currently-valid one and succeeds again once that laudo
has been invalidated; automatic signing, manual signing and manual
upload preserve every per-exam count of valid laudos, and invalidation
can only lower it; Refazer, however, does NOT preserve the invariant:
it inserts a new laudo with `valido = true` for the same exam while
leaving the original laudo valid, raising the exam's valid-laudo count
by one. -/
theorem umLaudoValidoPorExame
    (s : State) (exameId laudoId usuarioId newId now tid : Nat)
    (conclusao usuarioNome cod : String) (esp : Option Nat) (pdfOk : Bool)
    (file : Option ArquivoUpload) (o : Oracle)
    (hex0 : exameId ≠ 0) (hconc : conclusao ≠ "")
    (hexame : (findExame s.exames exameId).isSome)
    (hnodup : (s.laudos.map Laudo.id).Nodup) :
    ((findLaudoValido s.laudos exameId).isSome →
      criarLaudo s exameId conclusao usuarioId usuarioNome esp newId now cod pdfOk o
        = { resp := .erro 400 "Já existe um laudo válido para este exame",
            state := s, saves := [] }) ∧
    ((∀ l ∈ s.laudos, l.exame = exameId → l.valido = true → l.id = laudoId) →
      ∃ msg, (criarLaudo (invalidarLaudo s laudoId).state exameId conclusao usuarioId
          usuarioNome esp newId now cod pdfOk o).resp = .ok 201 msg) ∧
    (∀ e, validosParaExame (assinarLaudoAutomaticamente s laudoId usuarioId
        usuarioNome now o).state e = validosParaExame s e ∧
      validosParaExame (assinarLaudoManual s laudoId usuarioId
        usuarioNome now o).state e = validosParaExame s e ∧
      validosParaExame (uploadLaudoAssinado s laudoId usuarioId
        usuarioNome file now o).state e = validosParaExame s e ∧
      validosParaExame (invalidarLaudo s laudoId).state e ≤ validosParaExame s e) ∧
    (∀ orig r0, findLaudo s.laudos laudoId = some orig → orig.valido = true →
      orig.exame = exameId →
      gerarPdfLaudoAssinado s.certificados usuarioId now o = .ok r0 →
      (∀ l ∈ s.laudos, l.id ≠ newId) →
      validosParaExame (refazerLaudo s laudoId none usuarioId usuarioNome
        tid newId now cod o).state exameId = validosParaExame s exameId + 1) := by
  obtain ⟨ex, hEx⟩ := Option.isSome_iff_exists.mp hexame
  have hguard : (exameId == 0 || conclusao == "") = false := by
    simp [hex0, hconc]
  refine ⟨?_, ?_, ?_, ?_⟩
  · intro hvalid
    simp [criarLaudo, hguard, hEx, hvalid]
  · intro hAll
    cases hfl : findLaudo s.laudos laudoId with
    | none =>
      have hnone : findLaudoValido s.laudos exameId = none := by
        refine List.find?_eq_none.mpr (fun x hx hpx => ?_)
        simp only [Bool.and_eq_true, beq_iff_eq] at hpx
        have hid := hAll x hx hpx.1 hpx.2
        have := List.find?_eq_none.mp hfl x hx
        simp [hid] at this
      unfold invalidarLaudo
      rw [hfl]
      dsimp only
      refine ⟨if (findCertificadoAtivo s.certificados usuarioId now).isSome then
          "Laudo criado! Você pode assinar automaticamente ou fazer upload do laudo assinado."
        else "Laudo criado! Faça upload do laudo assinado para finalizar.", ?_⟩
      simp [criarLaudo, hguard, hEx, hnone]
    | some l0 =>
      have hl0id : l0.id = laudoId := by simpa using List.find?_some hfl
      have hnone : findLaudoValido
          (saveLaudo s.laudos { l0 with valido := false, status := "Invalidado" })
          exameId = none := by
        refine List.find?_eq_none.mpr (fun x hx hpx => ?_)
        obtain ⟨y, hy, hyx⟩ := List.mem_map.mp hx
        by_cases hyid : y.id = l0.id
        · rw [if_pos (by simpa using hyid)] at hyx
          rw [← hyx] at hpx
          simp at hpx
        · rw [if_neg (by simpa using hyid)] at hyx
          subst hyx
          simp only [Bool.and_eq_true, beq_iff_eq] at hpx
          exact hyid (by rw [hAll y hy hpx.1 hpx.2, ← hl0id])
      unfold invalidarLaudo
      rw [hfl]
      dsimp only
      refine ⟨if (findCertificadoAtivo s.certificados usuarioId now).isSome then
          "Laudo criado! Você pode assinar automaticamente ou fazer upload do laudo assinado."
        else "Laudo criado! Faça upload do laudo assinado para finalizar.", ?_⟩
      simp [criarLaudo, hguard, hEx, hnone]
  · intro e
    exact ⟨assinarAutomaticamente_preserva_validos s laudoId usuarioId
        usuarioNome now o hnodup e,
      assinarManual_preserva_validos s laudoId usuarioId usuarioNome now o hnodup e,
      uploadLaudoAssinado_preserva_validos s laudoId usuarioId usuarioNome
        file now o hnodup e,
      invalidarLaudo_nao_aumenta_validos s laudoId e⟩
  · intro orig r0 hfl hval hexam hpdf hfresh
    unfold refazerLaudo
    rw [hfl]
    dsimp only
    rw [hpdf]
    dsimp only
    unfold validosParaExame
    dsimp only
    refine length_filter_saveLaudo_append s.laudos _ _ ?_ ?_ _ ?_
    · rfl
    · exact fun x hx => hfresh x hx
    · simp [novoLaudoRefacao, hexam, hval]

/-- Witness for C3 (amended): stored password " Abc1 " with correct
password "Abc1" — the trimmed variant signs successfully. -/
theorem senhasParaTestar_variantes_witness :
    senhasParaTestar (some " Abc1 ") =
      [" Abc1 ", jsTrim " Abc1 ", jsToLower " Abc1 ", jsToUpper " Abc1 "].filter
        (fun p => p ≠ "") ∧
    ∃ p, tentarAssinatura (some " Abc1 ") (fun q => q == "Abc1")
        (fun q => q == "Abc1") = some p ∧
      (fun q => q == "Abc1") p = true ∧ (fun q => q == "Abc1") p = true := by
  exact senhasParaTestar_variantes " Abc1 " _ _ (by decide) (by decide) (by decide)

/-- Claim C1 counterexample: Refazer on a state with exactly one valid
laudo for exam 1 succeeds and leaves the exam with TWO valid laudos —
the original is never invalidated — so Refazer does not preserve the
at-most-one-valid-laudo invariant the claim asserts. -/
theorem refazerLaudo_dois_validos :
    validosParaExame stateBase 1 = 1 ∧
    (refazerLaudo stateBase 1 none 7 "Dr. A" 1 2 50 "9999" oracleOk).resp
      = .ok 201 "Laudo refeito e assinado com sucesso" ∧
    validosParaExame (refazerLaudo stateBase 1 none 7 "Dr. A" 1 2 50
      "9999" oracleOk).state 1 = 2 := by
  refine ⟨by decide, by decide, by decide⟩

/-- Witness for C1 (amended) on the base state: creation is rejected
while the laudo is valid, succeeds after invalidation, signing/upload
preserve and invalidation does not raise the valid count, and refazer
raises it by one. -/
theorem umLaudoValidoPorExame_witness :
    criarLaudo stateBase 1 "Nova" 7 "Dr. A" none 2 50 "9999" true oracleOk
      = { resp := .erro 400 "Já existe um laudo válido para este exame",
          state := stateBase, saves := [] } ∧
    (∃ msg, (criarLaudo (invalidarLaudo stateBase 1).state 1 "Nova" 7 "Dr. A"
        none 2 50 "9999" true oracleOk).resp = .ok 201 msg) ∧
    validosParaExame (assinarLaudoAutomaticamente stateBase 1 7 "Dr. A" 50
      oracleOk).state 1 = validosParaExame stateBase 1 ∧
    validosParaExame (assinarLaudoManual stateBase 1 7 "Dr. A" 50
      oracleOk).state 1 = validosParaExame stateBase 1 ∧
    validosParaExame (uploadLaudoAssinado stateBase 1 7 "Dr. A"
      (some { mimetype := "application/pdf", size := 10 }) 50 oracleOk).state 1
      = validosParaExame stateBase 1 ∧
    validosParaExame (invalidarLaudo stateBase 1).state 1
      ≤ validosParaExame stateBase 1 ∧
    validosParaExame (refazerLaudo stateBase 1 none 7 "Dr. A" 1 2 50
      "9999" oracleOk).state 1 = validosParaExame stateBase 1 + 1 := by
  have h := umLaudoValidoPorExame stateBase 1 1 7 2 50 1 "Nova" "Dr. A" "9999"
    none true (some { mimetype := "application/pdf", size := 10 }) oracleOk
    (by decide) (by decide) (by decide) (by decide)
  obtain ⟨h1, h2, h3, h4⟩ := h
  refine ⟨h1 (by decide), h2 (by decide), (h3 1).1, (h3 1).2.1, (h3 1).2.2.1,
    (h3 1).2.2.2, ?_⟩
  exact h4 laudoBase
    { success := true, fileUrl := oracleOk.s3Url, s3Key := some oracleOk.s3Key,
      assinadoCom := some "certificado_medico", certificadoId := some 5,
      signed := none, storage := "s3" }
    (by decide) (by decide) (by decide) (by rfl) (by decide)

/-- When every guard of `assinarLaudoAutomaticamente` passes and the PDF
pipeline resolves, the operation marks the laudo signed via
`aplicarAssinatura` and reports success — whatever the pipeline's
`signed`/`assinadoCom` fields say. -/
theorem assinarAutomaticamente_sucesso
    (s : State) (laudoId usuarioId : Nat) (usuarioNome : String) (now : Nat)
    (o : Oracle) (l : Laudo) (r : GerarPdfResult)
    (hfl : findLaudo s.laudos laudoId = some l)
    (hperm : l.medicoResponsavelId = usuarioId)
    (hstatus : l.status = "Laudo pronto para assinatura" ∨ l.status = "Laudo realizado")
    (hact : (findCertificadoAtivo s.certificados usuarioId now).isSome)
    (hg : gerarPdfLaudoAssinado s.certificados usuarioId now o = .ok r)
    (hsuc : r.success = true) :
    assinarLaudoAutomaticamente s laudoId usuarioId usuarioNome now o =
      { resp := .ok 200 "Laudo assinado automaticamente com sucesso!",
        state := atualizarExamePosAssinatura
          { s with laudos := saveLaudo s.laudos (aplicarAssinatura l r usuarioId
              usuarioNome "Laudo assinado automaticamente com certificado digital"
              now o.deleteOk) } l.exame,
        saves := [aplicarAssinatura l r usuarioId usuarioNome
          "Laudo assinado automaticamente com certificado digital" now o.deleteOk] } := by
  have hperm2 : (l.medicoResponsavelId != usuarioId) = false := by simp [hperm]
  have hst : (["Laudo pronto para assinatura", "Laudo realizado"].contains l.status)
      = true := by
    rcases hstatus with h | h <;> simp [h]
  have hact2 : (findCertificadoAtivo s.certificados usuarioId now).isNone = false := by
    simpa [Option.isNone_eq_false_iff] using hact
  unfold assinarLaudoAutomaticamente
  rw [hfl]
  dsimp only
  rw [hperm2, hst, hact2, hg]
  dsimp only
  rw [hsuc]
  rfl

/-- Same success shape for `assinarLaudoManual`. -/
theorem assinarManual_sucesso
    (s : State) (laudoId usuarioId : Nat) (usuarioNome : String) (now : Nat)
    (o : Oracle) (l : Laudo) (r : GerarPdfResult)
    (hfl : findLaudo s.laudos laudoId = some l)
    (hperm : l.medicoResponsavelId = usuarioId)
    (hstatus : l.status = "Laudo pronto para assinatura" ∨ l.status = "Laudo realizado")
    (hact : (findCertificadoAtivo s.certificados usuarioId now).isSome)
    (hg : gerarPdfLaudoAssinado s.certificados usuarioId now o = .ok r)
    (hsuc : r.success = true) :
    assinarLaudoManual s laudoId usuarioId usuarioNome now o =
      { resp := .ok 200 "Laudo assinado com sucesso!",
        state := atualizarExamePosAssinatura
          { s with laudos := saveLaudo s.laudos (aplicarAssinatura l r usuarioId
              usuarioNome "Laudo assinado manualmente com certificado digital"
              now o.deleteOk) } l.exame,
        saves := [aplicarAssinatura l r usuarioId usuarioNome
          "Laudo assinado manualmente com certificado digital" now o.deleteOk] } := by
  have hperm2 : (l.medicoResponsavelId != usuarioId) = false := by simp [hperm]
  have hst : (["Laudo pronto para assinatura", "Laudo realizado"].contains l.status)
      = true := by
    rcases hstatus with h | h <;> simp [h]
  have hact2 : (findCertificadoAtivo s.certificados usuarioId now).isNone = false := by
    simpa [Option.isNone_eq_false_iff] using hact
  unfold assinarLaudoManual
  rw [hfl]
  dsimp only
  rw [hperm2, hst, hact2, hg]
  dsimp only
  rw [hsuc]
  rfl

/-- When the certificate is obtainable but no password variant passes,
the PDF pipeline still resolves successfully whenever a storage backend
accepts the unsigned buffer, with `signed: false`; it rejects only when
both backends fail. -/
theorem gerarPdf_assinatura_falha
    (certs : List Certificado) (medicoId now : Nat) (o : Oracle)
    (c : CertificadoParaAssinatura)
    (hcert : obterCertificadoParaAssinatura certs medicoId now o.certArquivoOk = .ok c)
    (hfail : tentarAssinatura c.senha o.parseOk o.signOk = none) :
    (o.s3Ok = true →
      gerarPdfLaudoAssinado certs medicoId now o =
        .ok { success := true, fileUrl := o.s3Url, s3Key := some o.s3Key,
              assinadoCom := none, certificadoId := none,
              signed := some false, storage := "s3" }) ∧
    (o.s3Ok = false → o.uploadcareOk = true →
      gerarPdfLaudoAssinado certs medicoId now o =
        .ok { success := true, fileUrl := o.uploadcareUrl, s3Key := none,
              assinadoCom := none, certificadoId := none,
              signed := some false, storage := "uploadcare" }) ∧
    (o.s3Ok = false → o.uploadcareOk = false →
      gerarPdfLaudoAssinado certs medicoId now o =
        .error "Erro na assinatura digital") := by
  unfold gerarPdfLaudoAssinado
  rw [hcert]
  dsimp only
  rw [hfail]
  unfold uploadSemAssinatura
  refine ⟨fun h3 => ?_, fun h3 hu => ?_, fun h3 hu => ?_⟩
  · rw [h3]
    rfl
  · rw [h3, hu]
    rfl
  · rw [h3, hu]
    rfl

/-- Claim C2 counterexample: with a valid certificate whose password
fails every variant (signing fails) but working storage, the explicitly
invoked Sign-automatically operation reports HTTP 200 success and marks
the laudo `status = 'Laudo assinado'`, `assinadoDigitalmente = true` —
the failure is silently downgraded, not surfaced, and the report IS
marked as signed. -/
theorem assinarAutomaticamente_falha_silenciosa :
    gerarPdfLaudoAssinado stateBase.certificados 7 50 oracleAssinaturaFalha
      = .ok { success := true, fileUrl := oracleOk.s3Url,
              s3Key := some oracleOk.s3Key, assinadoCom := none,
              certificadoId := none, signed := some false, storage := "s3" } ∧
    (assinarLaudoAutomaticamente stateBase 1 7 "Dr. A" 50
      oracleAssinaturaFalha).resp
      = .ok 200 "Laudo assinado automaticamente com sucesso!" ∧
    (findLaudo (assinarLaudoAutomaticamente stateBase 1 7 "Dr. A" 50
      oracleAssinaturaFalha).state.laudos 1).map Laudo.status
      = some "Laudo assinado" ∧
    (findLaudo (assinarLaudoAutomaticamente stateBase 1 7 "Dr. A" 50
      oracleAssinaturaFalha).state.laudos 1).map Laudo.assinadoDigitalmente
      = some true := by
  refine ⟨by rfl, by decide, by decide, by decide⟩

/-- Claim C2 (amended): when cryptographic signing fails during an
explicitly invoked Sign operation but a storage backend accepts the
unsigned buffer, the operation reports success and the laudo is still
marked signed (`status = 'Laudo assinado'`, `assinadoDigitalmente =
true`, `assinadoCom` unset); an error is surfaced (and the state left
unchanged) only when the whole pipeline rejects, e.g. when both storage
backends fail. -/
theorem assinarAutomaticamente_degrada_sem_erro
    (s : State) (laudoId usuarioId : Nat) (usuarioNome : String) (now : Nat)
    (o : Oracle) (l : Laudo) (c : CertificadoParaAssinatura)
    (hfl : findLaudo s.laudos laudoId = some l)
    (hperm : l.medicoResponsavelId = usuarioId)
    (hstatus : l.status = "Laudo pronto para assinatura" ∨ l.status = "Laudo realizado")
    (hcert : obterCertificadoParaAssinatura s.certificados usuarioId now
      o.certArquivoOk = .ok c)
    (hfail : tentarAssinatura c.senha o.parseOk o.signOk = none) :
    (o.s3Ok = true →
      (assinarLaudoAutomaticamente s laudoId usuarioId usuarioNome now o).resp
        = .ok 200 "Laudo assinado automaticamente com sucesso!" ∧
      ∃ l1, (assinarLaudoAutomaticamente s laudoId usuarioId usuarioNome
          now o).saves = [l1] ∧
        l1.status = "Laudo assinado" ∧ l1.assinadoDigitalmente = true ∧
        l1.assinadoCom = none) ∧
    (o.s3Ok = false → o.uploadcareOk = false →
      assinarLaudoAutomaticamente s laudoId usuarioId usuarioNome now o
        = { resp := .erro 500 "Erro interno do servidor", state := s, saves := [] }) := by
  have hact : (findCertificadoAtivo s.certificados usuarioId now).isSome := by
    unfold obterCertificadoParaAssinatura at hcert
    cases h : findCertificadoAtivo s.certificados usuarioId now with
    | none => rw [h] at hcert; exact absurd hcert (by simp)
    | some c0 => simp
  obtain ⟨hgs3, hguc, hgnone⟩ := gerarPdf_assinatura_falha s.certificados
    usuarioId now o c hcert hfail
  constructor
  · intro h3
    rw [assinarAutomaticamente_sucesso s laudoId usuarioId usuarioNome now o l _
      hfl hperm hstatus hact (hgs3 h3) rfl]
    exact ⟨rfl, _, rfl, rfl, rfl, rfl⟩
  · intro h3 hu
    have hperm2 : (l.medicoResponsavelId != usuarioId) = false := by simp [hperm]
    have hst : (["Laudo pronto para assinatura", "Laudo realizado"].contains
        l.status) = true := by
      rcases hstatus with h | h <;> simp [h]
    have hact2 : (findCertificadoAtivo s.certificados usuarioId now).isNone
        = false := by
      simpa [Option.isNone_eq_false_iff] using hact
    unfold assinarLaudoAutomaticamente
    rw [hfl]
    dsimp only
    rw [hperm2, hst, hact2, hgnone h3 hu]
    rfl

/-- Witness for C2 (amended) on the base state with failing signatures:
storage-success path reports 200 and saves a laudo marked signed; the
both-stores-fail path surfaces a 500 and leaves the state unchanged. -/
theorem assinarAutomaticamente_degrada_sem_erro_witness :
    ((assinarLaudoAutomaticamente stateBase 1 7 "Dr. A" 50
        oracleAssinaturaFalha).resp
      = .ok 200 "Laudo assinado automaticamente com sucesso!" ∧
     ∃ l1, (assinarLaudoAutomaticamente stateBase 1 7 "Dr. A" 50
        oracleAssinaturaFalha).saves = [l1] ∧
       l1.status = "Laudo assinado" ∧ l1.assinadoDigitalmente = true ∧
       l1.assinadoCom = none) ∧
    assinarLaudoAutomaticamente stateBase 1 7 "Dr. A" 50
      { oracleAssinaturaFalha with s3Ok := false, uploadcareOk := false }
      = { resp := .erro 500 "Erro interno do servidor", state := stateBase,
          saves := [] } := by
  constructor
  · exact (assinarAutomaticamente_degrada_sem_erro stateBase 1 7 "Dr. A" 50
      oracleAssinaturaFalha laudoBase { certificadoId := 5, senha := some "pw" }
      (by decide) (by decide) (by decide) (by rfl) (by decide)).1 (by decide)
  · exact (assinarAutomaticamente_degrada_sem_erro stateBase 1 7 "Dr. A" 50
      { oracleAssinaturaFalha with s3Ok := false, uploadcareOk := false }
      laudoBase { certificadoId := 5, senha := some "pw" }
      (by decide) (by decide) (by decide) (by rfl) (by decide)).2 (by decide) (by decide)

/-- Full shape of a successful `refazerLaudo` run: the new laudo is
saved twice — first as built by `novoLaudoRefacao` (already
`'Laudo assinado'`, no artifact pointers), then with the legacy signed
URL and signature date — and only the new row is ever written. -/
theorem refazerLaudo_sucesso
    (s : State) (laudoId : Nat) (conc : Option String) (usuarioId : Nat)
    (usuarioNome : String) (tid newId now : Nat) (cod : String) (o : Oracle)
    (orig : Laudo) (r : GerarPdfResult)
    (hfl : findLaudo s.laudos laudoId = some orig)
    (hg : gerarPdfLaudoAssinado s.certificados usuarioId now o = .ok r) :
    refazerLaudo s laudoId conc usuarioId usuarioNome tid newId now cod o =
      { resp := .ok 201 "Laudo refeito e assinado com sucesso",
        state := { s with
          laudos := saveLaudo
            (s.laudos ++ [novoLaudoRefacao orig conc usuarioId usuarioNome tid
              newId now cod])
            { novoLaudoRefacao orig conc usuarioId usuarioNome tid newId now cod with
              laudoAssinado := some r.fileUrl, dataAssinatura := some now },
          exames := match findExame s.exames orig.exame with
            | none => s.exames
            | some e => saveExame s.exames
                { e with laudo := some newId, status := "Laudo realizado" } },
        saves := [novoLaudoRefacao orig conc usuarioId usuarioNome tid newId now cod,
          { novoLaudoRefacao orig conc usuarioId usuarioNome tid newId now cod with
            laudoAssinado := some r.fileUrl, dataAssinatura := some now }] } := by
  unfold refazerLaudo
  rw [hfl]
  dsimp only
  rw [hg]

/-- Shape of a successful `uploadLaudoAssinado` with working primary
(S3) storage: the saved laudo carries the signed-storage key. -/
theorem uploadLaudoAssinado_sucesso_s3
    (s : State) (laudoId usuarioId : Nat) (usuarioNome : String)
    (f : ArquivoUpload) (now : Nat) (o : Oracle) (l : Laudo)
    (hmime : f.mimetype = "application/pdf")
    (hfl : findLaudo s.laudos laudoId = some l)
    (hperm : l.medicoResponsavelId = usuarioId)
    (hstatus : l.status = "Laudo pronto para assinatura" ∨ l.status = "Laudo realizado")
    (h3 : o.s3Ok = true) :
    uploadLaudoAssinado s laudoId usuarioId usuarioNome (some f) now o =
      { resp := .ok 200 "Laudo assinado enviado com sucesso!",
        state := atualizarExamePosAssinatura
          { s with laudos := saveLaudo s.laudos (aplicarUploadManual l o.s3Url
            (some o.s3Key) usuarioId usuarioNome now o.deleteOk) } l.exame,
        saves := [aplicarUploadManual l o.s3Url (some o.s3Key) usuarioId
          usuarioNome now o.deleteOk] } := by
  have hmime2 : (f.mimetype != "application/pdf") = false := by simp [hmime]
  have hperm2 : (l.medicoResponsavelId != usuarioId) = false := by simp [hperm]
  have hst : (["Laudo pronto para assinatura", "Laudo realizado"].contains l.status)
      = true := by
    rcases hstatus with h | h <;> simp [h]
  have hnofail : (!o.s3Ok && !o.uploadcareOk) = false := by rw [h3]; rfl
  unfold uploadLaudoAssinado
  dsimp only
  rw [hmime2, hfl]
  dsimp only
  rw [hperm2, hst, hnofail, h3]
  rfl

/-- Shape of a successful `uploadLaudoAssinado` on the UploadCare
fallback path (S3 down): no storage key is recorded and the legacy
signed-URL field is not touched — only `arquivoPath` gets the URL. -/
theorem uploadLaudoAssinado_sucesso_uploadcare
    (s : State) (laudoId usuarioId : Nat) (usuarioNome : String)
    (f : ArquivoUpload) (now : Nat) (o : Oracle) (l : Laudo)
    (hmime : f.mimetype = "application/pdf")
    (hfl : findLaudo s.laudos laudoId = some l)
    (hperm : l.medicoResponsavelId = usuarioId)
    (hstatus : l.status = "Laudo pronto para assinatura" ∨ l.status = "Laudo realizado")
    (h3 : o.s3Ok = false) (hu : o.uploadcareOk = true) :
    uploadLaudoAssinado s laudoId usuarioId usuarioNome (some f) now o =
      { resp := .ok 200 "Laudo assinado enviado com sucesso!",
        state := atualizarExamePosAssinatura
          { s with laudos := saveLaudo s.laudos (aplicarUploadManual l
            o.uploadcareUrl none usuarioId usuarioNome now o.deleteOk) } l.exame,
        saves := [aplicarUploadManual l o.uploadcareUrl none usuarioId
          usuarioNome now o.deleteOk] } := by
  have hmime2 : (f.mimetype != "application/pdf") = false := by simp [hmime]
  have hperm2 : (l.medicoResponsavelId != usuarioId) = false := by simp [hperm]
  have hst : (["Laudo pronto para assinatura", "Laudo realizado"].contains l.status)
      = true := by
    rcases hstatus with h | h <;> simp [h]
  have hnofail : (!o.s3Ok && !o.uploadcareOk) = false := by rw [h3, hu]; rfl
  unfold uploadLaudoAssinado
  dsimp only
  rw [hmime2, hfl]
  dsimp only
  rw [hperm2, hst, hnofail, h3]
  rfl

/-- Claim C8: when the acting physician is the responsible physician of
a signable laudo but has no active, unexpired certificate — including
when every certificate of theirs is expired — Sign-automatically fails
with the actionable no-certificate message, performs no write, and
leaves the state (hence the laudo's status) unchanged. -/
theorem assinarAutomaticamente_sem_certificado
    (s : State) (laudoId usuarioId : Nat) (usuarioNome : String) (now : Nat)
    (o : Oracle) (l : Laudo)
    (hfl : findLaudo s.laudos laudoId = some l)
    (hperm : l.medicoResponsavelId = usuarioId)
    (hstatus : l.status = "Laudo pronto para assinatura" ∨ l.status = "Laudo realizado")
    (hnocert : findCertificadoAtivo s.certificados usuarioId now = none) :
    assinarLaudoAutomaticamente s laudoId usuarioId usuarioNome now o
      = { resp := .erro 400 "Você não possui um certificado digital ativo. Cadastre um certificado ou faça upload do laudo assinado.",
          state := s, saves := [] } ∧
    findLaudo (assinarLaudoAutomaticamente s laudoId usuarioId usuarioNome
      now o).state.laudos laudoId = some l := by
  have hperm2 : (l.medicoResponsavelId != usuarioId) = false := by simp [hperm]
  have hst : (["Laudo pronto para assinatura", "Laudo realizado"].contains l.status)
      = true := by
    rcases hstatus with h | h <;> simp [h]
  have hmain : assinarLaudoAutomaticamente s laudoId usuarioId usuarioNome now o
      = { resp := .erro 400 "Você não possui um certificado digital ativo. Cadastre um certificado ou faça upload do laudo assinado.",
          state := s, saves := [] } := by
    unfold assinarLaudoAutomaticamente
    rw [hfl]
    dsimp only
    rw [hperm2, hst, hnocert]
    rfl
  exact ⟨hmain, by rw [hmain]; exact hfl⟩

/-- Witness for C8: physician 7's only certificate expired at time 40;
at time 50 Sign-automatically fails with the no-certificate message and
the laudo is unchanged. -/
theorem assinarAutomaticamente_sem_certificado_witness :
    assinarLaudoAutomaticamente
      { stateBase with certificados := [{ certBase with dataVencimento := 40 }] }
      1 7 "Dr. A" 50 oracleOk
      = { resp := .erro 400 "Você não possui um certificado digital ativo. Cadastre um certificado ou faça upload do laudo assinado.",
          state := { stateBase with
            certificados := [{ certBase with dataVencimento := 40 }] },
          saves := [] } ∧
    findLaudo (assinarLaudoAutomaticamente
      { stateBase with certificados := [{ certBase with dataVencimento := 40 }] }
      1 7 "Dr. A" 50 oracleOk).state.laudos 1 = some laudoBase := by
  exact assinarAutomaticamente_sem_certificado
    { stateBase with certificados := [{ certBase with dataVencimento := 40 }] }
    1 7 "Dr. A" 50 oracleOk laudoBase
    (by decide) (by decide) (by decide) (by decide)

/-- Saving a laudo whose id matches no stored row changes nothing. -/
theorem saveLaudo_fresh (laudos : List Laudo) (u : Laudo)
    (hfresh : ∀ x ∈ laudos, x.id ≠ u.id) : saveLaudo laudos u = laudos := by
  unfold saveLaudo
  rw [List.map_congr_left (fun x hx => if_neg (by simpa using hfresh x hx))]
  simp

/-- `saveLaudo` distributes over list append. -/
theorem saveLaudo_append (a b : List Laudo) (u : Laudo) :
    saveLaudo (a ++ b) u = saveLaudo a u ++ saveLaudo b u :=
  List.map_append _ a b

/-- Claim C4 counterexample: the first `save()` of a successful Refazer
persists the new laudo with `status = 'Laudo assinado'` while BOTH the
signed-storage key and the legacy signed URL are still null. -/
theorem refazer_persiste_assinado_sem_artefatos :
    ((refazerLaudo stateBase 1 none 7 "Dr. A" 1 2 50 "9999" oracleOk).saves.head?).map
      (fun l => (l.status, l.laudoAssinadoKey, l.laudoAssinado))
      = some ("Laudo assinado", none, none) := by
  decide

/-- Claim C4 (amended): Sign-automatically records the signed-storage
key whenever the pipeline returns one, and uploads with working primary
storage record it too; but the invariant does not hold at every
persist: the UploadCare-fallback upload keeps the previous (possibly
null) pointers — its URL goes only to `arquivoPath` — and Refazer's
first save persists `status = 'Laudo assinado'` with both pointers
null, the legacy URL being set only by its second save. -/
theorem statusAssinado_artefatos
    (s : State) (laudoId usuarioId newId now tid : Nat)
    (usuarioNome cod : String) (conc : Option String) (f : ArquivoUpload)
    (o : Oracle) (l : Laudo) (r : GerarPdfResult) (k : String)
    (hfl : findLaudo s.laudos laudoId = some l)
    (hperm : l.medicoResponsavelId = usuarioId)
    (hstatus : l.status = "Laudo pronto para assinatura" ∨ l.status = "Laudo realizado")
    (hmime : f.mimetype = "application/pdf") :
    ((findCertificadoAtivo s.certificados usuarioId now).isSome →
      gerarPdfLaudoAssinado s.certificados usuarioId now o = .ok r →
      r.success = true → r.s3Key = some k →
      ∃ l1, (assinarLaudoAutomaticamente s laudoId usuarioId usuarioNome
          now o).saves = [l1] ∧
        l1.status = "Laudo assinado" ∧ l1.laudoAssinadoKey = some k) ∧
    (o.s3Ok = true →
      ∃ l1, (uploadLaudoAssinado s laudoId usuarioId usuarioNome (some f)
          now o).saves = [l1] ∧
        l1.status = "Laudo assinado" ∧ l1.laudoAssinadoKey = some o.s3Key) ∧
    (o.s3Ok = false → o.uploadcareOk = true →
      ∃ l1, (uploadLaudoAssinado s laudoId usuarioId usuarioNome (some f)
          now o).saves = [l1] ∧
        l1.status = "Laudo assinado" ∧ l1.laudoAssinadoKey = l.laudoAssinadoKey ∧
        l1.laudoAssinado = l.laudoAssinado) ∧
    (gerarPdfLaudoAssinado s.certificados usuarioId now o = .ok r →
      ∃ l1 l2, (refazerLaudo s laudoId conc usuarioId usuarioNome tid newId
          now cod o).saves = [l1, l2] ∧
        l1.status = "Laudo assinado" ∧ l1.laudoAssinadoKey = none ∧
        l1.laudoAssinado = none ∧
        l2.status = "Laudo assinado" ∧ l2.laudoAssinado = some r.fileUrl) := by
  refine ⟨fun hact hg hsuc hkey => ?_, fun h3 => ?_, fun h3 hu => ?_, fun hg => ?_⟩
  · rw [assinarAutomaticamente_sucesso s laudoId usuarioId usuarioNome now o l r
      hfl hperm hstatus hact hg hsuc]
    exact ⟨_, rfl, rfl, by simp [aplicarAssinatura, hkey]⟩
  · rw [uploadLaudoAssinado_sucesso_s3 s laudoId usuarioId usuarioNome f now o l
      hmime hfl hperm hstatus h3]
    exact ⟨_, rfl, rfl, rfl⟩
  · rw [uploadLaudoAssinado_sucesso_uploadcare s laudoId usuarioId usuarioNome f
      now o l hmime hfl hperm hstatus h3 hu]
    exact ⟨_, rfl, rfl, rfl, rfl⟩
  · rw [refazerLaudo_sucesso s laudoId conc usuarioId usuarioNome tid newId now
      cod o l r hfl hg]
    exact ⟨_, _, rfl, rfl, rfl, rfl, rfl, rfl⟩

/-- Witness for C4 (amended) on the base state, exercising the S3 paths
with `oracleOk` and the UploadCare fallback with `oracleSemS3`. -/
theorem statusAssinado_artefatos_witness :
    (∃ l1, (assinarLaudoAutomaticamente stateBase 1 7 "Dr. A" 50
        oracleOk).saves = [l1] ∧
      l1.status = "Laudo assinado" ∧ l1.laudoAssinadoKey = some oracleOk.s3Key) ∧
    (∃ l1, (uploadLaudoAssinado stateBase 1 7 "Dr. A"
        (some { mimetype := "application/pdf", size := 10 }) 50
        oracleOk).saves = [l1] ∧
      l1.status = "Laudo assinado" ∧ l1.laudoAssinadoKey = some oracleOk.s3Key) ∧
    (∃ l1, (uploadLaudoAssinado stateBase 1 7 "Dr. A"
        (some { mimetype := "application/pdf", size := 10 }) 50
        oracleSemS3).saves = [l1] ∧
      l1.status = "Laudo assinado" ∧ l1.laudoAssinadoKey = laudoBase.laudoAssinadoKey ∧
      l1.laudoAssinado = laudoBase.laudoAssinado) ∧
    (∃ l1 l2, (refazerLaudo stateBase 1 none 7 "Dr. A" 1 2 50
        "9999" oracleOk).saves = [l1, l2] ∧
      l1.status = "Laudo assinado" ∧ l1.laudoAssinadoKey = none ∧
      l1.laudoAssinado = none ∧
      l2.status = "Laudo assinado" ∧ l2.laudoAssinado = some oracleOk.s3Url) := by
  have h1 := statusAssinado_artefatos stateBase 1 7 2 50 1 "Dr. A" "9999" none
    { mimetype := "application/pdf", size := 10 } oracleOk laudoBase
    { success := true, fileUrl := oracleOk.s3Url, s3Key := some oracleOk.s3Key,
      assinadoCom := some "certificado_medico", certificadoId := some 5,
      signed := none, storage := "s3" } oracleOk.s3Key
    (by decide) (by decide) (by decide) (by decide)
  have h2 := statusAssinado_artefatos stateBase 1 7 2 50 1 "Dr. A" "9999" none
    { mimetype := "application/pdf", size := 10 } oracleSemS3 laudoBase
    { success := true, fileUrl := oracleOk.s3Url, s3Key := some oracleOk.s3Key,
      assinadoCom := some "certificado_medico", certificadoId := some 5,
      signed := none, storage := "s3" } oracleOk.s3Key
    (by decide) (by decide) (by decide) (by decide)
  exact ⟨h1.1 (by decide) (by rfl) (by decide) (by decide),
    h1.2.1 (by decide), h2.2.2.1 (by decide) (by decide),
    h1.2.2.2 (by rfl)⟩

/-- Claim C5 counterexample: `invalidarLaudo` changes the laudo's state
(`valido := false`, `status := 'Invalidado'`) through a bare
`findByIdAndUpdate` and appends NO entry to the laudo's own history
array — here the history stays empty. -/
theorem invalidarLaudo_sem_historico :
    (invalidarLaudo stateBase 1).resp = .ok 200 "Laudo invalidado com sucesso" ∧
    ((findLaudo (invalidarLaudo stateBase 1).state.laudos 1).map
      (fun l => (l.status, l.valido, l.historico)))
      = some ("Invalidado", false, ([] : List HistoricoEntry)) := by
  refine ⟨by decide, by decide⟩

/-- Claim C5 (amended): automatic signing, manual signing and manual
upload each append exactly one structured entry (actor id and name,
action, detail, version) to the report's own history, and Refazer's new
report carries the original's entries plus the `'Refação'` entry; but
Invalidate changes the report's state without appending any history
entry. -/
theorem historico_transicoes
    (s : State) (laudoId usuarioId newId now tid : Nat)
    (usuarioNome cod : String) (conc : Option String) (f : ArquivoUpload)
    (o : Oracle) (l : Laudo) (r : GerarPdfResult)
    (hfl : findLaudo s.laudos laudoId = some l)
    (hperm : l.medicoResponsavelId = usuarioId)
    (hstatus : l.status = "Laudo pronto para assinatura" ∨ l.status = "Laudo realizado")
    (hmime : f.mimetype = "application/pdf")
    (hact : (findCertificadoAtivo s.certificados usuarioId now).isSome)
    (hg : gerarPdfLaudoAssinado s.certificados usuarioId now o = .ok r)
    (hsuc : r.success = true)
    (h3 : o.s3Ok = true) :
    (∃ l1, (assinarLaudoAutomaticamente s laudoId usuarioId usuarioNome
        now o).saves = [l1] ∧
      l1.historico = l.historico ++
        [{ usuario := usuarioId, nomeUsuario := usuarioNome, acao := "Assinatura",
           detalhes := "Laudo assinado automaticamente com certificado digital",
           versao := l.versao }]) ∧
    (∃ l1, (assinarLaudoManual s laudoId usuarioId usuarioNome now o).saves = [l1] ∧
      l1.historico = l.historico ++
        [{ usuario := usuarioId, nomeUsuario := usuarioNome, acao := "Assinatura",
           detalhes := "Laudo assinado manualmente com certificado digital",
           versao := l.versao }]) ∧
    (∃ l1, (uploadLaudoAssinado s laudoId usuarioId usuarioNome (some f)
        now o).saves = [l1] ∧
      l1.historico = l.historico ++
        [{ usuario := usuarioId, nomeUsuario := usuarioNome, acao := "Assinatura",
           detalhes := "Laudo assinado via upload manual", versao := l.versao }]) ∧
    (∃ l1 l2, (refazerLaudo s laudoId conc usuarioId usuarioNome tid newId
        now cod o).saves = [l1, l2] ∧
      l1.historico = l.historico ++
        [{ usuario := usuarioId, nomeUsuario := usuarioNome, acao := "Refação",
           detalhes := "Laudo refeito", versao := l.historico.length + 1 }] ∧
      l2.historico = l1.historico) ∧
    (∃ l1, (invalidarLaudo s laudoId).saves = [l1] ∧
      l1.status = "Invalidado" ∧ l1.valido = false ∧
      l1.historico = l.historico) := by
  refine ⟨?_, ?_, ?_, ?_, ?_⟩
  · rw [assinarAutomaticamente_sucesso s laudoId usuarioId usuarioNome now o l r
      hfl hperm hstatus hact hg hsuc]
    exact ⟨_, rfl, rfl⟩
  · rw [assinarManual_sucesso s laudoId usuarioId usuarioNome now o l r
      hfl hperm hstatus hact hg hsuc]
    exact ⟨_, rfl, rfl⟩
  · rw [uploadLaudoAssinado_sucesso_s3 s laudoId usuarioId usuarioNome f now o l
      hmime hfl hperm hstatus h3]
    exact ⟨_, rfl, rfl⟩
  · rw [refazerLaudo_sucesso s laudoId conc usuarioId usuarioNome tid newId now
      cod o l r hfl hg]
    exact ⟨_, _, rfl, rfl, rfl⟩
  · unfold invalidarLaudo
    rw [hfl]
    dsimp only
    exact ⟨_, rfl, rfl, rfl, rfl⟩

/-- Witness for C5 (amended) on the base state with the all-success
oracle. -/
theorem historico_transicoes_witness :
    (∃ l1, (assinarLaudoAutomaticamente stateBase 1 7 "Dr. A" 50
        oracleOk).saves = [l1] ∧
      l1.historico = laudoBase.historico ++
        [{ usuario := 7, nomeUsuario := "Dr. A", acao := "Assinatura",
           detalhes := "Laudo assinado automaticamente com certificado digital",
           versao := laudoBase.versao }]) ∧
    (∃ l1, (assinarLaudoManual stateBase 1 7 "Dr. A" 50 oracleOk).saves = [l1] ∧
      l1.historico = laudoBase.historico ++
        [{ usuario := 7, nomeUsuario := "Dr. A", acao := "Assinatura",
           detalhes := "Laudo assinado manualmente com certificado digital",
           versao := laudoBase.versao }]) ∧
    (∃ l1, (uploadLaudoAssinado stateBase 1 7 "Dr. A"
        (some { mimetype := "application/pdf", size := 10 }) 50
        oracleOk).saves = [l1] ∧
      l1.historico = laudoBase.historico ++
        [{ usuario := 7, nomeUsuario := "Dr. A", acao := "Assinatura",
           detalhes := "Laudo assinado via upload manual",
           versao := laudoBase.versao }]) ∧
    (∃ l1 l2, (refazerLaudo stateBase 1 none 7 "Dr. A" 1 2 50
        "9999" oracleOk).saves = [l1, l2] ∧
      l1.historico = laudoBase.historico ++
        [{ usuario := 7, nomeUsuario := "Dr. A", acao := "Refação",
           detalhes := "Laudo refeito",
           versao := laudoBase.historico.length + 1 }] ∧
      l2.historico = l1.historico) ∧
    (∃ l1, (invalidarLaudo stateBase 1).saves = [l1] ∧
      l1.status = "Invalidado" ∧ l1.valido = false ∧
      l1.historico = laudoBase.historico) := by
  exact historico_transicoes stateBase 1 7 2 50 1 "Dr. A" "9999" none
    { mimetype := "application/pdf", size := 10 } oracleOk laudoBase
    { success := true, fileUrl := oracleOk.s3Url, s3Key := some oracleOk.s3Key,
      assinadoCom := some "certificado_medico", certificadoId := some 5,
      signed := none, storage := "s3" }
    (by decide) (by decide) (by decide) (by decide) (by decide) (by rfl)
    (by decide) (by decide)

/-- Claim C9: a successful Refazer creates a new laudo, retrievable
under its fresh id, whose history is the original's entries followed by
a `'Refação'` entry with version `original history length + 1`, and the
original laudo row is unmodified and still retrievable under its id. -/
theorem refazerLaudo_copia_historico_preserva_original
    (s : State) (laudoId usuarioId newId now tid : Nat)
    (usuarioNome cod : String) (conc : Option String) (o : Oracle)
    (orig : Laudo) (r : GerarPdfResult)
    (hfl : findLaudo s.laudos laudoId = some orig)
    (hg : gerarPdfLaudoAssinado s.certificados usuarioId now o = .ok r)
    (hfresh : ∀ x ∈ s.laudos, x.id ≠ newId) :
    (refazerLaudo s laudoId conc usuarioId usuarioNome tid newId now cod o).resp
      = .ok 201 "Laudo refeito e assinado com sucesso" ∧
    (∃ novo, findLaudo (refazerLaudo s laudoId conc usuarioId usuarioNome tid
        newId now cod o).state.laudos newId = some novo ∧
      novo.historico = orig.historico ++
        [{ usuario := usuarioId, nomeUsuario := usuarioNome, acao := "Refação",
           detalhes := "Laudo refeito",
           versao := orig.historico.length + 1 }]) ∧
    findLaudo (refazerLaudo s laudoId conc usuarioId usuarioNome tid newId
      now cod o).state.laudos laudoId = some orig := by
  rw [refazerLaudo_sucesso s laudoId conc usuarioId usuarioNome tid newId now
    cod o orig r hfl hg]
  dsimp only
  have hns : saveLaudo
      (s.laudos ++ [novoLaudoRefacao orig conc usuarioId usuarioNome tid newId
        now cod])
      { novoLaudoRefacao orig conc usuarioId usuarioNome tid newId now cod with
        laudoAssinado := some r.fileUrl, dataAssinatura := some now }
      = s.laudos ++
        [{ novoLaudoRefacao orig conc usuarioId usuarioNome tid newId now cod with
           laudoAssinado := some r.fileUrl, dataAssinatura := some now }] := by
    rw [saveLaudo_append, saveLaudo_fresh s.laudos _ (fun x hx => hfresh x hx)]
    unfold saveLaudo
    simp
  rw [hns]
  have hnone : s.laudos.find? (fun x => x.id == newId) = none :=
    List.find?_eq_none.mpr (fun x hx => by simpa using hfresh x hx)
  refine ⟨rfl,
    ⟨{ novoLaudoRefacao orig conc usuarioId usuarioNome tid newId now cod with
       laudoAssinado := some r.fileUrl, dataAssinatura := some now }, ?_, rfl⟩, ?_⟩
  · unfold findLaudo
    rw [List.find?_append, hnone]
    simp [List.find?_cons, novoLaudoRefacao]
  · unfold findLaudo
    rw [List.find?_append]
    unfold findLaudo at hfl
    rw [hfl]
    rfl

/-- Witness for C9 on the base state: the new laudo (id 2) carries the
single `'Refação'` entry and laudo 1 is unchanged. -/
theorem refazerLaudo_copia_historico_preserva_original_witness :
    (refazerLaudo stateBase 1 none 7 "Dr. A" 1 2 50 "9999" oracleOk).resp
      = .ok 201 "Laudo refeito e assinado com sucesso" ∧
    (∃ novo, findLaudo (refazerLaudo stateBase 1 none 7 "Dr. A" 1 2 50 "9999"
        oracleOk).state.laudos 2 = some novo ∧
      novo.historico = laudoBase.historico ++
        [{ usuario := 7, nomeUsuario := "Dr. A", acao := "Refação",
           detalhes := "Laudo refeito",
           versao := laudoBase.historico.length + 1 }]) ∧
    findLaudo (refazerLaudo stateBase 1 none 7 "Dr. A" 1 2 50 "9999"
      oracleOk).state.laudos 1 = some laudoBase := by
  exact refazerLaudo_copia_historico_preserva_original stateBase 1 7 2 50 1
    "Dr. A" "9999" none oracleOk laudoBase
    { success := true, fileUrl := oracleOk.s3Url, s3Key := some oracleOk.s3Key,
      assinadoCom := some "certificado_medico", certificadoId := some 5,
      signed := none, storage := "s3" }
    (by decide) (by rfl) (by decide)

/-- Claim C7: registering a certificate for a physician who already has
an active, unexpired one fails with the conflict message; after
deactivating that certificate through `removerCertificado`, a
registration whose analysis succeeds, whose certificate is unexpired
and whose fingerprint is new succeeds (deactivation keeps the row, so
the fingerprint-uniqueness check still sees the old certificate, but an
inactive certificate no longer blocks the active-certificate guard). -/
theorem registrarCertificado_conflito_e_reativacao
    (store store2 : List Certificado) (medicoId certId newId now : Nat)
    (info : CertificadoInfo) (senha : String)
    (hconf : (findCertificadoAtivo store medicoId now).isSome)
    (hAll : ∀ c ∈ store, c.medicoId = medicoId → c.ativo = true →
      now < c.dataVencimento → c.id = certId)
    (hrem : removerCertificado store certId medicoId = .ok store2)
    (hval : now < info.dataVencimento)
    (hfp : ∀ c ∈ store, c.fingerprint ≠ info.fingerprint) :
    registrarCertificado store medicoId (some info) senha newId now
      = .error "Já existe um certificado ativo para este médico. Desative o atual antes de cadastrar um novo." ∧
    ∃ store3, registrarCertificado store2 medicoId (some info) senha newId now
      = .ok store3 := by
  have hstore2 : store2
      = store.map (fun c => if c.id == certId then { c with ativo := false } else c) := by
    unfold removerCertificado at hrem
    cases hf : store.find? (fun c => c.id == certId && c.medicoId == medicoId) with
    | none => rw [hf] at hrem; exact absurd hrem (by simp)
    | some c0 => rw [hf] at hrem; exact (Except.ok.inj hrem).symm
  subst hstore2
  have hnoact : findCertificadoAtivo
      (store.map (fun c => if c.id == certId then { c with ativo := false } else c))
      medicoId now = none := by
    refine List.find?_eq_none.mpr (fun x hx => ?_)
    obtain ⟨y, hy, rfl⟩ := List.mem_map.mp hx
    by_cases hid : y.id = certId
    · rw [if_pos (by simpa using hid)]
      simp
    · rw [if_neg (by simpa using hid)]
      refine fun h => hid ?_
      simp only [Bool.and_eq_true, beq_iff_eq, decide_eq_true_eq] at h
      exact hAll y hy h.1.1 h.1.2 h.2
  have hfpnone : ((store.map (fun c => if c.id == certId then
      { c with ativo := false } else c)).find?
      (fun c => c.fingerprint == info.fingerprint)) = none := by
    refine List.find?_eq_none.mpr (fun x hx => ?_)
    obtain ⟨y, hy, rfl⟩ := List.mem_map.mp hx
    have hfpy := hfp y hy
    by_cases hid : y.id = certId
    · rw [if_pos (by simpa using hid)]
      simpa using hfpy
    · rw [if_neg (by simpa using hid)]
      simpa using hfpy
  constructor
  · simp [registrarCertificado, hconf]
  · refine ⟨store.map (fun c => if c.id == certId then { c with ativo := false }
        else c) ++
      [{ id := newId, medicoId := medicoId, ativo := true,
         dataVencimento := info.dataVencimento, fingerprint := info.fingerprint,
         senha := some senha }], ?_⟩
    unfold registrarCertificado
    rw [hnoact, Option.isSome_none]
    rw [if_neg Bool.false_ne_true]
    dsimp only
    rw [if_neg (Nat.not_le.mpr hval)]
    rw [hfpnone, Option.isSome_none]
    rw [if_neg Bool.false_ne_true]

/-- Witness for C7: physician 7's active certificate (id 5, fingerprint
"FP1") blocks a new registration; after deactivation, registering a
fresh certificate (fingerprint "FP2", expiring at 200) succeeds. -/
theorem registrarCertificado_conflito_e_reativacao_witness :
    registrarCertificado [certBase] 7
      (some { nomeCertificado := "Novo", dataVencimento := 200,
              fingerprint := "FP2" }) "x" 6 50
      = .error "Já existe um certificado ativo para este médico. Desative o atual antes de cadastrar um novo." ∧
    ∃ store3, registrarCertificado [{ certBase with ativo := false }] 7
      (some { nomeCertificado := "Novo", dataVencimento := 200,
              fingerprint := "FP2" }) "x" 6 50 = .ok store3 := by
  exact registrarCertificado_conflito_e_reativacao [certBase]
    [{ certBase with ativo := false }] 7 5 6 50
    { nomeCertificado := "Novo", dataVencimento := 200, fingerprint := "FP2" }
    "x" (by decide) (by decide) (by rfl) (by decide) (by decide)

/-- Claim C10: the public view projection is a function of the sanitized
fields only — two aggregates agreeing on the public fields and on the
signed-artifact presence flag produce identical responses, whatever
their storage keys (`laudoAssinado`, `laudoAssinadoKey`,
`laudoOriginal`, `laudoOriginalKey`) and internal ids
(`medicoResponsavelId`, `pacienteId`, `exameId`, `tenantId`) are — and
the exposed validation code is the masked report id (last eight
characters, upper-cased), the only id-derived datum in the payload. -/
theorem visualizarLaudoPublico_sanitizado
    (lc1 lc2 : LaudoCompleto) (hoje : Data)
    (hid : lc1.idStr = lc2.idStr) (hver : lc1.versao = lc2.versao)
    (hst : lc1.status = lc2.status) (hca : lc1.createdAt = lc2.createdAt)
    (hflag : (lc1.laudoAssinado.isSome || lc1.laudoAssinadoKey.isSome)
      = (lc2.laudoAssinado.isSome || lc2.laudoAssinadoKey.isSome))
    (had : lc1.assinadoDigitalmente = lc2.assinadoDigitalmente)
    (hac : lc1.assinadoCom = lc2.assinadoCom)
    (hda : lc1.dataAssinatura = lc2.dataAssinatura)
    (hpn : lc1.pacienteNome = lc2.pacienteNome)
    (hpd : lc1.pacienteDataNascimento = lc2.pacienteDataNascimento)
    (htn : lc1.tipoExameNome = lc2.tipoExameNome)
    (hde : lc1.dataExame = lc2.dataExame)
    (hc : lc1.conclusao = lc2.conclusao)
    (hmr : lc1.medicoResponsavel = lc2.medicoResponsavel) :
    visualizarLaudoPublico lc1 hoje = visualizarLaudoPublico lc2 hoje ∧
    (visualizarLaudoPublico lc1 hoje).codigoValidacao
      = (lc1.idStr.drop (lc1.idStr.length - 8)).toUpper ∧
    (visualizarLaudoPublico lc1 hoje).id = lc1.idStr := by
  refine ⟨?_, rfl, rfl⟩
  unfold visualizarLaudoPublico
  rw [hid, hver, hst, hca, hflag, had, hac, hda, hpn, hpd, htn, hde, hc, hmr]

/-- Witness for C10: two aggregates differing only in storage keys (with
equal presence flags) and internal ids yield the same response, with
the masked validation code "89ABCDEF". -/
theorem visualizarLaudoPublico_sanitizado_witness :
    visualizarLaudoPublico
      { idStr := "0123456789abcdef", versao := 1, status := "Laudo assinado",
        createdAt := 10, laudoOriginal := none, laudoOriginalKey := some "ko",
        laudoAssinado := some "https://a", laudoAssinadoKey := none,
        assinadoDigitalmente := true, assinadoCom := some "certificado_medico",
        dataAssinatura := some 11, conclusao := "Normal",
        medicoResponsavel := "Dr. A", medicoResponsavelId := 7, pacienteId := 3,
        pacienteNome := "Paciente", pacienteDataNascimento := some ⟨1990, 4, 15⟩,
        exameId := 1, tipoExameNome := "ECG", dataExame := some 9, tenantId := 1 }
      ⟨2020, 4, 15⟩
      = visualizarLaudoPublico
      { idStr := "0123456789abcdef", versao := 1, status := "Laudo assinado",
        createdAt := 10, laudoOriginal := some "legacy", laudoOriginalKey := none,
        laudoAssinado := none, laudoAssinadoKey := some "k2",
        assinadoDigitalmente := true, assinadoCom := some "certificado_medico",
        dataAssinatura := some 11, conclusao := "Normal",
        medicoResponsavel := "Dr. A", medicoResponsavelId := 99, pacienteId := 42,
        pacienteNome := "Paciente", pacienteDataNascimento := some ⟨1990, 4, 15⟩,
        exameId := 77, tipoExameNome := "ECG", dataExame := some 9, tenantId := 5 }
      ⟨2020, 4, 15⟩ ∧
    (visualizarLaudoPublico
      { idStr := "0123456789abcdef", versao := 1, status := "Laudo assinado",
        createdAt := 10, laudoOriginal := none, laudoOriginalKey := some "ko",
        laudoAssinado := some "https://a", laudoAssinadoKey := none,
        assinadoDigitalmente := true, assinadoCom := some "certificado_medico",
        dataAssinatura := some 11, conclusao := "Normal",
        medicoResponsavel := "Dr. A", medicoResponsavelId := 7, pacienteId := 3,
        pacienteNome := "Paciente", pacienteDataNascimento := some ⟨1990, 4, 15⟩,
        exameId := 1, tipoExameNome := "ECG", dataExame := some 9, tenantId := 1 }
      ⟨2020, 4, 15⟩).codigoValidacao
      = ("0123456789abcdef".drop ("0123456789abcdef".length - 8)).toUpper ∧
    (visualizarLaudoPublico
      { idStr := "0123456789abcdef", versao := 1, status := "Laudo assinado",
        createdAt := 10, laudoOriginal := none, laudoOriginalKey := some "ko",
        laudoAssinado := some "https://a", laudoAssinadoKey := none,
        assinadoDigitalmente := true, assinadoCom := some "certificado_medico",
        dataAssinatura := some 11, conclusao := "Normal",
        medicoResponsavel := "Dr. A", medicoResponsavelId := 7, pacienteId := 3,
        pacienteNome := "Paciente", pacienteDataNascimento := some ⟨1990, 4, 15⟩,
        exameId := 1, tipoExameNome := "ECG", dataExame := some 9, tenantId := 1 }
      ⟨2020, 4, 15⟩).id = "0123456789abcdef" := by
  exact visualizarLaudoPublico_sanitizado _ _ ⟨2020, 4, 15⟩
    (by decide) (by decide) (by decide) (by decide) (by decide) (by decide)
    (by decide) (by decide) (by decide) (by decide) (by decide) (by decide)
    (by decide) (by decide)

end LaudoFy
